import Mathlib

/-!
# Provisioning tokens (`api/types/provisioning.go`)

A shallow embedding of the join-token validator `ProvisionTokenV2.CheckAndSetDefaults`,
the per-provider rule validators, and the legacy `V1`/`V2` conversions.

Conventions of the embedding.

* A Go method with a pointer receiver that mutates its receiver and returns `error`
  becomes a function returning the final state of the receiver together with
  `Option Err` (`none` is Go's `nil` error).  The state component is the receiver as
  the call leaves it, also when an error is returned.
* `trace.BadParameter(format, args...)` is kept as the pair of its format string and
  its arguments; `trace.Wrap` keeps the error it wraps.
* Helpers of package `types` that live in other files (`Metadata.CheckAndSetDefaults`,
  `SystemRoles.Check`) and the constants `RoleBot`, `KindToken`, `V2`,
  `defaults.Namespace` are collected in the record `Deps`; the validator is
  parameterised by it.
-/

namespace Teleport

/-! ## Errors -/

/-- The value built by `trace.BadParameter(format, args...)`: the format string and the
arguments, unformatted. -/
structure Err where
  format : String
  args : List String
deriving DecidableEq, Repr

/-- Constructor `trace.BadParameter`. -/
def BadParameter (format : String) (args : List String) : Err :=
  { format := format, args := args }

/-! ## Join methods (lines 31-73) -/

/-- JoinMethod is the method used for new nodes to join the cluster (a Go string type). -/
abbrev JoinMethod := String

def JoinMethodUnspecified : JoinMethod := ""
def JoinMethodToken : JoinMethod := "token"
def JoinMethodEC2 : JoinMethod := "ec2"
def JoinMethodIAM : JoinMethod := "iam"
def JoinMethodGitHub : JoinMethod := "github"
def JoinMethodCircleCI : JoinMethod := "circleci"
def JoinMethodKubernetes : JoinMethod := "kubernetes"

/-- The package variable `JoinMethods`. -/
def JoinMethods : List JoinMethod :=
  [JoinMethodToken, JoinMethodEC2, JoinMethodIAM, JoinMethodGitHub, JoinMethodCircleCI,
    JoinMethodKubernetes]

/-- Modelled from the spec: `apiutils.JoinStrings` (package `api/utils`) is not part of
the source at hand; the registry error is "listing all valid methods", so the elements are
joined with the separator between them. -/
def JoinStrings (xs : List String) (sep : String) : String :=
  sep.intercalate xs

/-- Function `ValidateJoinMethod` (lines 66-73). -/
def ValidateJoinMethod (method : JoinMethod) : Option Err :=
  let hasJoinMethod := JoinMethods.contains method
  if !hasJoinMethod then
    some (BadParameter "join method must be one of %s" [JoinStrings JoinMethods ", "])
  else
    none

/-! ## Data model -/

/-- An instant of `time.Time`, counted in nanoseconds from the zero time
(January 1, year 1, 00:00:00 UTC); the zero value `time.Time{}` is `0`. -/
structure Time where
  nanos : Int
deriving DecidableEq, Repr

/-- The zero value `time.Time{}`. -/
def Time.zero : Time := { nanos := 0 }

/-- Method `time.Time.IsZero`. -/
def Time.IsZero (t : Time) : Bool := t.nanos == 0

/-- Type `Duration`: an `int64` count of nanoseconds. -/
abbrev Duration := Int

/-- The constant `time.Minute`, in nanoseconds. -/
def timeMinute : Duration := 60000000000

/-- Type `SystemRole` (a Go string type). -/
abbrev SystemRole := String

/-- Type `Labels`: label names with their values. -/
abbrev Labels := List (String × List String)

/-- The fields of `Metadata` that this file reads or writes. -/
structure Metadata where
  Name : String := ""
  Namespace : String := ""
  Expires : Option Time := none
  ID : Int := 0
deriving DecidableEq, Repr

/-- Modelled from the spec: `Metadata.Expiry` is not part of the source at hand; the
expiry is "optional; absent means never expires", the zero time. -/
def Metadata.Expiry (m : Metadata) : Time :=
  match m.Expires with
  | none => Time.zero
  | some t => t

/-- Modelled from the spec: `Metadata.SetExpiry` is not part of the source at hand; it
stores the given expiry. -/
def Metadata.SetExpiry (m : Metadata) (expires : Time) : Metadata :=
  { m with Expires := some expires }

/-- Type `TokenRule`: an allow rule of the `ec2` and `iam` methods. -/
structure TokenRule where
  AWSAccount : String := ""
  AWSRegions : List String := []
  AWSRole : String := ""
  AWSARN : String := ""
deriving DecidableEq, Repr

/-- A rule of `ProvisionTokenSpecV2GitHub`: the fields the validator reads. -/
structure GitHubRule where
  Sub : String := ""
  Repository : String := ""
  RepositoryOwner : String := ""
deriving DecidableEq, Repr

structure ProvisionTokenSpecV2GitHub where
  Allow : List GitHubRule := []
deriving DecidableEq, Repr

/-- A rule of `ProvisionTokenSpecV2CircleCI`. -/
structure CircleCIRule where
  ProjectID : String := ""
  ContextID : String := ""
deriving DecidableEq, Repr

structure ProvisionTokenSpecV2CircleCI where
  Allow : List CircleCIRule := []
  OrganizationID : String := ""
deriving DecidableEq, Repr

/-- A rule of `ProvisionTokenSpecV2Kubernetes`. -/
structure KubernetesRule where
  ServiceAccount : String := ""
deriving DecidableEq, Repr

structure ProvisionTokenSpecV2Kubernetes where
  Allow : List KubernetesRule := []
deriving DecidableEq, Repr

structure ProvisionTokenSpecV2 where
  Roles : List SystemRole := []
  Allow : List TokenRule := []
  AWSIIDTTL : Duration := 0
  JoinMethod : JoinMethod := ""
  BotName : String := ""
  SuggestedLabels : Labels := []
  GitHub : Option ProvisionTokenSpecV2GitHub := none
  CircleCI : Option ProvisionTokenSpecV2CircleCI := none
  SuggestedAgentMatcherLabels : Labels := []
  Kubernetes : Option ProvisionTokenSpecV2Kubernetes := none
deriving DecidableEq, Repr

structure ProvisionTokenV2 where
  Kind : String := ""
  SubKind : String := ""
  Version : String := ""
  Metadata : Metadata := {}
  Spec : ProvisionTokenSpecV2 := {}
deriving DecidableEq, Repr

/-- The legacy token shape. -/
structure ProvisionTokenV1 where
  Roles : List SystemRole := []
  Expires : Time := Time.zero
  Token : String := ""
deriving DecidableEq, Repr

/-- The parts of package `types` (and of `api/defaults`) that the validator uses and that
live outside `provisioning.go`.  `metadataCheck` is `Metadata.CheckAndSetDefaults`: it
returns the metadata as the call leaves it and the error, if any.  `rolesCheck` is
`SystemRoles.Check`. -/
structure Deps where
  metadataCheck : Metadata → Metadata × Option Err
  rolesCheck : List SystemRole → Option Err
  RoleBot : SystemRole
  KindToken : String
  V2 : String
  defaultsNamespace : String

/-- Modelled from the spec: `SystemRoles.Include` is not part of the source at hand; it
tells whether the roles contain the given role. -/
def Include (roles : List SystemRole) (role : SystemRole) : Bool :=
  roles.contains role

/-! ## The validator (lines 142-255) -/

/-- Method `setStaticFields` (lines 143-146). -/
def ProvisionTokenV2.setStaticFields (d : Deps) (p : ProvisionTokenV2) : ProvisionTokenV2 :=
  { p with Kind := d.KindToken, Version := d.V2 }

/-- Lines 150-168 of `CheckAndSetDefaults`: the static fields, the metadata check and the
checks on the roles and the bot name, which do not depend on the join method. -/
def checkCommon (d : Deps) (p : ProvisionTokenV2) : ProvisionTokenV2 × Option Err :=
  let p := p.setStaticFields d
  let r := d.metadataCheck p.Metadata
  let p := { p with Metadata := r.1 }
  match r.2 with
  | some err => (p, some err)
  | none =>
    if p.Spec.Roles.length = 0 then
      (p, some (BadParameter "provisioning token is missing roles" []))
    else
      match d.rolesCheck p.Spec.Roles with
      | some err => (p, some err)
      | none =>
        if Include p.Spec.Roles d.RoleBot && p.Spec.BotName == "" then
          (p, some (BadParameter "token with role %q must set bot_name" [d.RoleBot]))
        else if p.Spec.BotName != "" && !Include p.Spec.Roles d.RoleBot then
          (p, some (BadParameter "can only set bot_name on token with role %q" [d.RoleBot]))
        else
          (p, none)

/-- Lines 170-180 of `CheckAndSetDefaults`: the default of an unspecified join method. -/
def defaultJoinMethod (spec : ProvisionTokenSpecV2) : ProvisionTokenSpecV2 :=
  let hasAllowRules := decide (spec.Allow.length > 0)
  if spec.JoinMethod = JoinMethodUnspecified then
    if hasAllowRules then { spec with JoinMethod := JoinMethodEC2 }
    else { spec with JoinMethod := JoinMethodToken }
  else spec

/-- The loop of lines 190-197 over the allow rules of the `ec2` method: the first error. -/
def ec2RuleLoop : List TokenRule → Option Err
  | [] => none
  | allowRule :: rest =>
    if allowRule.AWSARN ≠ "" then
      some (BadParameter "the %q join method does not support the \"aws_arn\" parameter"
        [JoinMethodEC2])
    else if allowRule.AWSAccount = "" ∧ allowRule.AWSRole = "" then
      some (BadParameter
        "allow rule for %q join method must set \"aws_account\" or \"aws_role\""
        [JoinMethodEC2])
    else ec2RuleLoop rest

/-- The loop of lines 206-216 over the allow rules of the `iam` method: the first error. -/
def iamRuleLoop : List TokenRule → Option Err
  | [] => none
  | allowRule :: rest =>
    if allowRule.AWSRole ≠ "" then
      some (BadParameter "the %q join method does not support the \"aws_role\" parameter"
        [JoinMethodIAM])
    else if allowRule.AWSRegions.length ≠ 0 then
      some (BadParameter "the %q join method does not support the \"aws_regions\" parameter"
        [JoinMethodIAM])
    else if allowRule.AWSAccount = "" ∧ allowRule.AWSARN = "" then
      some (BadParameter
        "allow rule for %q join method must set \"aws_account\" or \"aws_arn\""
        [JoinMethodEC2])
    else iamRuleLoop rest

/-- The loop of lines 448-458 over the rules of the `github` method. -/
def githubRuleLoop : List GitHubRule → Option Err
  | [] => none
  | rule :: rest =>
    let repoSet := rule.Repository != ""
    let ownerSet := rule.RepositoryOwner != ""
    let subSet := rule.Sub != ""
    if !(subSet || ownerSet || repoSet) then
      some (BadParameter
        "allow rule for %q must include at least one of \"repository\", \"repository_owner\" or \"sub\""
        [JoinMethodGitHub])
    else githubRuleLoop rest

/-- Method `ProvisionTokenSpecV2GitHub.checkAndSetDefaults` (lines 444-460). -/
def ProvisionTokenSpecV2GitHub.checkAndSetDefaults (a : ProvisionTokenSpecV2GitHub) :
    ProvisionTokenSpecV2GitHub × Option Err :=
  if a.Allow.length = 0 then
    (a, some (BadParameter "the %q join method requires at least one token allow rule"
      [JoinMethodGitHub]))
  else (a, githubRuleLoop a.Allow)

/-- The loop of lines 469-478 over the rules of the `circleci` method. -/
def circleCIRuleLoop : List CircleCIRule → Option Err
  | [] => none
  | rule :: rest =>
    let projectSet := rule.ProjectID != ""
    let contextSet := rule.ContextID != ""
    if !projectSet && !contextSet then
      some (BadParameter
        "allow rule for %q must include at least \"project_id\" or \"context_id\""
        [JoinMethodCircleCI])
    else circleCIRuleLoop rest

/-- Method `ProvisionTokenSpecV2CircleCI.checkAndSetDefaults` (lines 462-480). -/
def ProvisionTokenSpecV2CircleCI.checkAndSetDefaults (a : ProvisionTokenSpecV2CircleCI) :
    ProvisionTokenSpecV2CircleCI × Option Err :=
  if a.Allow.length = 0 then
    (a, some (BadParameter "the %q join method requires at least one token allow rule"
      [JoinMethodCircleCI]))
  else if a.OrganizationID = "" then
    (a, some (BadParameter "the %q join method requires 'organization_id' to be set"
      [JoinMethodCircleCI]))
  else (a, circleCIRuleLoop a.Allow)

/-- The pieces of `strings.Split(s, sep)` for a separator of one character, on the
characters of `s`: the pieces between the occurrences of the separator, so one more piece
than there are occurrences. -/
def splitChars (sep : Char) : List Char → List (List Char)
  | [] => [[]]
  | c :: cs =>
    if c = sep then [] :: splitChars sep cs
    else
      match splitChars sep cs with
      | [] => [[c]]
      | w :: ws => (c :: w) :: ws

/-- The call `strings.Split(s, ":")` of line 496, the separator being the one character. -/
def stringsSplit (s : String) (sep : Char) : List String :=
  (splitChars sep s.toList).map String.mk

/-- The loop of lines 489-503 over the rules of the `kubernetes` method. -/
def kubernetesRuleLoop : List KubernetesRule → Option Err
  | [] => none
  | allowRule :: rest =>
    if allowRule.ServiceAccount = "" then
      some (BadParameter
        "the %q join method requires kubernetes allow rules with non-empty service account name"
        [JoinMethodKubernetes])
    else if (stringsSplit allowRule.ServiceAccount ':').length ≠ 2 then
      some (BadParameter
        "the %q join method service account rule format is \"namespace:service_account\", got %q instead"
        [JoinMethodKubernetes, allowRule.ServiceAccount])
    else kubernetesRuleLoop rest

/-- Method `ProvisionTokenSpecV2Kubernetes.checkAndSetDefaults` (lines 482-505). -/
def ProvisionTokenSpecV2Kubernetes.checkAndSetDefaults (a : ProvisionTokenSpecV2Kubernetes) :
    ProvisionTokenSpecV2Kubernetes × Option Err :=
  if a.Allow.length = 0 then
    (a, some (BadParameter "the %q join method requires defined kubernetes allow rules"
      [JoinMethodKubernetes]))
  else (a, kubernetesRuleLoop a.Allow)

/-- Lines 170-254 of `CheckAndSetDefaults`: the default of the join method and the switch
over it. -/
def checkJoinMethod (p : ProvisionTokenV2) : ProvisionTokenV2 × Option Err :=
  let hasAllowRules := decide (p.Spec.Allow.length > 0)
  let p := { p with Spec := defaultJoinMethod p.Spec }
  if p.Spec.JoinMethod = JoinMethodToken then
    if hasAllowRules then
      (p, some (BadParameter "allow rules are not compatible with the %q join method"
        [JoinMethodToken]))
    else (p, none)
  else if p.Spec.JoinMethod = JoinMethodEC2 then
    if !hasAllowRules then
      (p, some (BadParameter "the %q join method requires defined token allow rules"
        [JoinMethodEC2]))
    else
      match ec2RuleLoop p.Spec.Allow with
      | some err => (p, some err)
      | none =>
        if p.Spec.AWSIIDTTL = 0 then
          ({ p with Spec := { p.Spec with AWSIIDTTL := 5 * timeMinute } }, none)
        else (p, none)
  else if p.Spec.JoinMethod = JoinMethodIAM then
    if !hasAllowRules then
      (p, some (BadParameter "the %q join method requires defined token allow rules"
        [JoinMethodIAM]))
    else
      match iamRuleLoop p.Spec.Allow with
      | some err => (p, some err)
      | none => (p, none)
  else if p.Spec.JoinMethod = JoinMethodGitHub then
    match p.Spec.GitHub with
    | none =>
      (p, some (BadParameter "\"github\" configuration must be provided for join method %q"
        [JoinMethodGitHub]))
    | some providerCfg =>
      let r := providerCfg.checkAndSetDefaults
      ({ p with Spec := { p.Spec with GitHub := some r.1 } }, r.2)
  else if p.Spec.JoinMethod = JoinMethodCircleCI then
    match p.Spec.CircleCI with
    | none =>
      (p, some (BadParameter "\"cirleci\" configuration must be provided for join method %q"
        [JoinMethodCircleCI]))
    | some providerCfg =>
      let r := providerCfg.checkAndSetDefaults
      ({ p with Spec := { p.Spec with CircleCI := some r.1 } }, r.2)
  else if p.Spec.JoinMethod = JoinMethodKubernetes then
    match p.Spec.Kubernetes with
    | none =>
      (p, some (BadParameter
        "\"kubernetes\" configuration must be provided for the join method %q"
        [JoinMethodKubernetes]))
    | some providerCfg =>
      let r := providerCfg.checkAndSetDefaults
      ({ p with Spec := { p.Spec with Kubernetes := some r.1 } }, r.2)
  else
    (p, some (BadParameter "unknown join method %q" [p.Spec.JoinMethod]))

/-- Method `ProvisionTokenV2.CheckAndSetDefaults` (lines 149-255): the method-independent
checks, then, when they pass, the join method. -/
def ProvisionTokenV2.CheckAndSetDefaults (d : Deps) (p : ProvisionTokenV2) :
    ProvisionTokenV2 × Option Err :=
  let r := checkCommon d p
  match r.2 with
  | some err => (r.1, some err)
  | none => checkJoinMethod r.1

/-! ## Construction and the legacy shape -/

/-- Function `NewProvisionTokenFromSpec` (lines 118-130): the token, or the error and no
token. -/
def NewProvisionTokenFromSpec (d : Deps) (token : String) (expires : Time)
    (spec : ProvisionTokenSpecV2) : Except Err ProvisionTokenV2 :=
  let t : ProvisionTokenV2 :=
    { Metadata := { Name := token, Expires := some expires }, Spec := spec }
  let r := t.CheckAndSetDefaults d
  match r.2 with
  | some err => Except.error err
  | none => Except.ok r.1

/-- Function `NewProvisionToken` (lines 111-115). -/
def NewProvisionToken (d : Deps) (token : String) (roles : List SystemRole) (expires : Time) :
    Except Err ProvisionTokenV2 :=
  NewProvisionTokenFromSpec d token expires { Roles := roles }

/-- Method `ProvisionTokenV2.Expiry` (lines 362-364). -/
def ProvisionTokenV2.Expiry (p : ProvisionTokenV2) : Time :=
  p.Metadata.Expiry

/-- Method `ProvisionTokenV2.SetExpiry` (lines 357-359). -/
def ProvisionTokenV2.SetExpiry (p : ProvisionTokenV2) (expires : Time) : ProvisionTokenV2 :=
  { p with Metadata := p.Metadata.SetExpiry expires }

/-- Method `ProvisionTokenV2.GetName` (lines 367-369). -/
def ProvisionTokenV2.GetName (p : ProvisionTokenV2) : String :=
  p.Metadata.Name

/-- Method `ProvisionTokenV2.GetRoles` (lines 265-267). -/
def ProvisionTokenV2.GetRoles (p : ProvisionTokenV2) : List SystemRole :=
  p.Spec.Roles

/-- Method `ProvisionTokenV2.V1` (lines 343-349). -/
def ProvisionTokenV2.V1 (p : ProvisionTokenV2) : ProvisionTokenV1 :=
  { Roles := p.Spec.Roles, Expires := p.Metadata.Expiry, Token := p.Metadata.Name }

/-- Lines 416-429 of `ProvisionTokenV1.V2`: the token as built before it is validated. -/
def ProvisionTokenV1.build (d : Deps) (p : ProvisionTokenV1) : ProvisionTokenV2 :=
  let t : ProvisionTokenV2 :=
    { Kind := d.KindToken
      Version := d.V2
      Metadata := { Name := p.Token, Namespace := d.defaultsNamespace }
      Spec := { Roles := p.Roles } }
  if !p.Expires.IsZero then t.SetExpiry p.Expires else t

/-- Method `ProvisionTokenV1.V2` (lines 415-432): the built token as
`CheckAndSetDefaults` leaves it; the error of that call is dropped (line 430). -/
def ProvisionTokenV1.V2 (d : Deps) (p : ProvisionTokenV1) : ProvisionTokenV2 :=
  ((p.build d).CheckAndSetDefaults d).1

/-- Function `ProvisionTokensFromV1` (lines 398-407). -/
def ProvisionTokensFromV1 (d : Deps) (tokens : List ProvisionTokenV1) : List ProvisionTokenV2 :=
  tokens.map (ProvisionTokenV1.V2 d)

/-- Function `ProvisionTokensToV1` (lines 386-395). -/
def ProvisionTokensToV1 (tokens : List ProvisionTokenV2) : List ProvisionTokenV1 :=
  tokens.map ProvisionTokenV2.V1

/-! ## Properties asked of the metadata check -/

/-- The metadata check is idempotent: on metadata it has accepted and left behind, it
accepts again and changes nothing. -/
def Deps.MetadataIdempotent (d : Deps) : Prop :=
  ∀ m, (d.metadataCheck m).2 = none →
    d.metadataCheck (d.metadataCheck m).1 = ((d.metadataCheck m).1, none)

/-- The metadata check leaves the name and the expiry of the metadata as they are, whether
it accepts or not. -/
def Deps.MetadataKeepsNameAndExpiry (d : Deps) : Prop :=
  ∀ m, (d.metadataCheck m).1.Name = m.Name ∧ (d.metadataCheck m).1.Expiry = m.Expiry

/-! ## A reference instance of the dependencies -/

/-- Modelled from the spec: `Metadata.CheckAndSetDefaults` is not part of the source at
hand; metadata validation fails "when the name is empty", and otherwise leaves the metadata
as it is. -/
def refMetadataCheck (m : Metadata) : Metadata × Option Err :=
  if m.Name = "" then (m, some (BadParameter "missing parameter Name" []))
  else (m, none)

/-- Modelled from the spec: `SystemRoles.Check` is not part of the source at hand; the spec
asks for "role set well-formedness", taken here as: no role is the empty name. -/
def refRolesCheck (roles : List SystemRole) : Option Err :=
  if roles.contains "" then some (BadParameter "role %v is not registered" [""])
  else none

/-- Modelled from the spec: the constants `RoleBot`, `KindToken`, `V2` and
`defaults.Namespace` are not part of the source at hand; this instance gives "the bot role",
the resource kind and version stamps and the default namespace one value each, with the two
checks above.  It serves the worked cases; the theorems hold for every `Deps`. -/
def refDeps : Deps :=
  { metadataCheck := refMetadataCheck
    rolesCheck := refRolesCheck
    RoleBot := "Bot"
    KindToken := "token"
    V2 := "v2"
    defaultsNamespace := "default" }

/-- A token named `tok` with the given specification and nothing else set: the input of
the worked cases below. -/
def sampleToken (spec : ProvisionTokenSpecV2) : ProvisionTokenV2 :=
  { Metadata := { Name := "tok" }, Spec := spec }

/-- A token of the given join method with the one given allow rule. -/
def ruleSample (method : JoinMethod) (rule : TokenRule) : ProvisionTokenV2 :=
  sampleToken { Roles := ["Node"], JoinMethod := method, Allow := [rule] }

/-- A `kubernetes` token whose configuration has the one rule with the given service
account. -/
def kubernetesSample (serviceAccount : String) : ProvisionTokenV2 :=
  sampleToken
    { Roles := ["Node"]
      JoinMethod := "kubernetes"
      Kubernetes := some { Allow := [{ ServiceAccount := serviceAccount }] } }

/-- A bot token: the bot role with a bot name, no join method given. -/
def botSample : ProvisionTokenV2 :=
  sampleToken { Roles := ["Bot"], BotName := "robot" }

/-- An `ec2` token with one account rule, no TTL given, expiring at a set time. -/
def ec2Sample : ProvisionTokenV2 :=
  { Metadata := { Name := "tok", Expires := some { nanos := 1700000000000000000 } }
    Spec := { Roles := ["Node"], Allow := [{ AWSAccount := "1234" }] } }

/-- A legacy token without roles. -/
def legacyNoRoles : ProvisionTokenV1 :=
  { Roles := [], Token := "tok" }

/-- A legacy token with one role. -/
def legacyNode : ProvisionTokenV1 :=
  { Roles := ["Node"], Token := "tok" }

/-- A `github` token whose configuration has the one given rule. -/
def githubSample (rule : GitHubRule) : ProvisionTokenV2 :=
  sampleToken
    { Roles := ["Node"]
      JoinMethod := "github"
      GitHub := some { Allow := [rule] } }

/-- A `circleci` token with the given organization and the one given rule. -/
def circleCISample (organizationID : String) (rule : CircleCIRule) : ProvisionTokenV2 :=
  sampleToken
    { Roles := ["Node"]
      JoinMethod := "circleci"
      CircleCI := some { Allow := [rule], OrganizationID := organizationID } }

/-- An `iam` token whose one allow rule sets no field at all. -/
def iamEmptyRuleSample : ProvisionTokenV2 :=
  ruleSample "iam" {}

/-- An `iam` token with one account rule which also carries an empty github configuration
and an empty kubernetes configuration. -/
def otherConfigSample : ProvisionTokenV2 :=
  sampleToken
    { Roles := ["Node"]
      JoinMethod := "iam"
      Allow := [{ AWSAccount := "1234" }]
      GitHub := some {}
      Kubernetes := some {} }

/-- A token with a join method that is not registered. -/
def unknownMethodSample : ProvisionTokenV2 :=
  sampleToken { Roles := ["Node"], JoinMethod := "k8s" }

/-- A specification with one role and one account rule, no join method given. -/
def sampleSpec : ProvisionTokenSpecV2 :=
  { Roles := ["Node"], Allow := [{ AWSAccount := "1234" }] }

/-! ## Lemmas on the parts of the validator -/

theorem checkCommon_state (d : Deps) (p : ProvisionTokenV2) :
    (checkCommon d p).1 =
      { p with Kind := d.KindToken, Version := d.V2,
               Metadata := (d.metadataCheck p.Metadata).1 } := by
  unfold checkCommon ProvisionTokenV2.setStaticFields
  simp only []
  split
  · rfl
  · split
    · rfl
    · split
      · rfl
      · split
        · rfl
        · split <;> rfl

theorem checkCommon_ok_iff (d : Deps) (p : ProvisionTokenV2) :
    (checkCommon d p).2 = none ↔
      (d.metadataCheck p.Metadata).2 = none ∧ p.Spec.Roles ≠ [] ∧
        d.rolesCheck p.Spec.Roles = none ∧
        (p.Spec.BotName ≠ "" ↔ Include p.Spec.Roles d.RoleBot = true) := by
  unfold checkCommon ProvisionTokenV2.setStaticFields
  simp only []
  split
  · rename_i err h; simp [h]
  · rename_i h
    split
    · rename_i hl; simp at hl; simp [h, hl]
    · rename_i hl
      split
      · rename_i err hr; simp [hr]
      · rename_i hr
        simp at hl
        split
        · rename_i hb; simp at hb; simp [h, hl, hr, hb]
        · rename_i hb
          split
          · rename_i hc; simp at hc; simp [h, hl, hr, hc]
          · rename_i hc; simp at hb hc; simp [h, hl, hr]
            constructor
            · intro hne; exact hc hne
            · intro hi; exact hb hi

theorem checkCommon_spec (d : Deps) (p : ProvisionTokenV2) :
    (checkCommon d p).1.Spec = p.Spec := by
  rw [checkCommon_state]

theorem ec2RuleLoop_none_iff (rules : List TokenRule) :
    ec2RuleLoop rules = none ↔
      ∀ r ∈ rules, r.AWSARN = "" ∧ (r.AWSAccount ≠ "" ∨ r.AWSRole ≠ "") := by
  induction rules with
  | nil => simp [ec2RuleLoop]
  | cons r rest ih =>
    unfold ec2RuleLoop
    by_cases h1 : r.AWSARN = ""
    · by_cases h2 : r.AWSAccount = "" ∧ r.AWSRole = ""
      · simp [h1, h2]
      · have h3 : r.AWSAccount ≠ "" ∨ r.AWSRole ≠ "" := by
          by_contra hc; push_neg at hc; exact h2 hc
        simp [h1, h2, ih, h3]
    · simp [h1]

theorem iamRuleLoop_none_iff (rules : List TokenRule) :
    iamRuleLoop rules = none ↔
      ∀ r ∈ rules, r.AWSRole = "" ∧ r.AWSRegions = [] ∧
        (r.AWSAccount ≠ "" ∨ r.AWSARN ≠ "") := by
  induction rules with
  | nil => simp [iamRuleLoop]
  | cons r rest ih =>
    unfold iamRuleLoop
    by_cases h1 : r.AWSRole = ""
    · by_cases h0 : r.AWSRegions = []
      · by_cases h2 : r.AWSAccount = "" ∧ r.AWSARN = ""
        · simp [h1, h0, h2]
        · have h3 : r.AWSAccount ≠ "" ∨ r.AWSARN ≠ "" := by
            by_contra hc; push_neg at hc; exact h2 hc
          simp [h1, h0, h2, ih, h3]
      · simp [h1, h0]
    · simp [h1]

theorem splitChars_length (sep : Char) (cs : List Char) :
    (splitChars sep cs).length = cs.count sep + 1 := by
  induction cs with
  | nil => simp [splitChars]
  | cons c rest ih =>
    unfold splitChars
    by_cases h : c = sep
    · simp [h, ih]
    · have hne : (c == sep) = false := by simpa using h
      simp only [h, if_false]
      split
      · rename_i h0; rw [h0] at ih; simp at ih
      · rename_i w ws h0
        rw [h0] at ih
        simp [List.count_cons, hne] at ih ⊢
        exact ih

theorem stringsSplit_length (s : String) (sep : Char) :
    (stringsSplit s sep).length = s.toList.count sep + 1 := by
  simp [stringsSplit, splitChars_length]

theorem kubernetesRuleLoop_none_iff (rules : List KubernetesRule) :
    kubernetesRuleLoop rules = none ↔
      ∀ r ∈ rules, r.ServiceAccount ≠ "" ∧ r.ServiceAccount.toList.count ':' = 1 := by
  induction rules with
  | nil => simp [kubernetesRuleLoop]
  | cons r rest ih =>
    unfold kubernetesRuleLoop
    by_cases h1 : r.ServiceAccount = ""
    · simp [h1]
    · by_cases h2 : r.ServiceAccount.toList.count ':' = 1
      · have h2' : List.count ':' r.ServiceAccount.data = 1 := h2
        simp [h1, stringsSplit_length, h2', ih]
      · have h2' : ¬ List.count ':' r.ServiceAccount.data = 1 := h2
        simp [h1, stringsSplit_length, h2']

theorem defaultJoinMethod_joinMethod (spec : ProvisionTokenSpecV2) :
    (defaultJoinMethod spec).JoinMethod =
      if spec.JoinMethod = JoinMethodUnspecified then
        (if spec.Allow ≠ [] then JoinMethodEC2 else JoinMethodToken)
      else spec.JoinMethod := by
  unfold defaultJoinMethod
  by_cases h : spec.JoinMethod = JoinMethodUnspecified
  · by_cases ha : spec.Allow = []
    · simp [h, ha]
    · have : 0 < spec.Allow.length := List.length_pos.mpr ha
      simp [h, ha, this]
  · simp [h]

theorem defaultJoinMethod_frame (spec : ProvisionTokenSpecV2) :
    defaultJoinMethod spec = { spec with JoinMethod := (defaultJoinMethod spec).JoinMethod } := by
  unfold defaultJoinMethod
  simp only []
  split
  · split <;> rfl
  · rfl

theorem github_checkAndSetDefaults_state (a : ProvisionTokenSpecV2GitHub) :
    a.checkAndSetDefaults.1 = a := by
  unfold ProvisionTokenSpecV2GitHub.checkAndSetDefaults
  split <;> rfl

theorem circleCI_checkAndSetDefaults_state (a : ProvisionTokenSpecV2CircleCI) :
    a.checkAndSetDefaults.1 = a := by
  unfold ProvisionTokenSpecV2CircleCI.checkAndSetDefaults
  split
  · rfl
  · split <;> rfl

theorem kubernetes_checkAndSetDefaults_state (a : ProvisionTokenSpecV2Kubernetes) :
    a.checkAndSetDefaults.1 = a := by
  unfold ProvisionTokenSpecV2Kubernetes.checkAndSetDefaults
  split <;> rfl

/-- What the switch leaves behind: the token with its join method defaulted and, on the
accepting `ec2` path with an unset TTL, the TTL set to five minutes. -/
theorem checkJoinMethod_state (p : ProvisionTokenV2) :
    (checkJoinMethod p).1 =
      { p with Spec :=
        { p.Spec with
          JoinMethod := (defaultJoinMethod p.Spec).JoinMethod
          AWSIIDTTL :=
            if (defaultJoinMethod p.Spec).JoinMethod = JoinMethodEC2 ∧
                (checkJoinMethod p).2 = none ∧ p.Spec.AWSIIDTTL = 0 then 5 * timeMinute
            else p.Spec.AWSIIDTTL } } := by
  have hf := defaultJoinMethod_frame p.Spec
  generalize hm : (defaultJoinMethod p.Spec).JoinMethod = m at hf
  have hA : (defaultJoinMethod p.Spec).Allow = p.Spec.Allow := by rw [hf]
  have hT : (defaultJoinMethod p.Spec).AWSIIDTTL = p.Spec.AWSIIDTTL := by rw [hf]
  unfold checkJoinMethod
  simp only [hm, hA, hT]
  by_cases h1 : m = JoinMethodToken
  · have : ¬ (JoinMethodToken = JoinMethodEC2) := by decide
    subst h1
    simp only [if_true, this, false_and, if_false]
    split <;> simp [hf]
  · simp only [h1, if_false]
    by_cases h2 : m = JoinMethodEC2
    · subst h2
      simp only [if_true, true_and]
      split
      · simp [hf]
      · split
        · simp [hf]
        · by_cases ht : p.Spec.AWSIIDTTL = 0
          · simp [ht, hf]
          · simp [ht, hf]
    · simp only [h2, if_false, false_and]
      by_cases h3 : m = JoinMethodIAM
      · simp only [h3, if_true]
        split
        · simp [hf, h3]
        · split <;> simp [hf, h3]
      · simp only [h3, if_false]
        by_cases h4 : m = JoinMethodGitHub
        · simp only [h4, if_true]
          have hG : (defaultJoinMethod p.Spec).GitHub = p.Spec.GitHub := by rw [hf]
          rw [hG]
          cases hg : p.Spec.GitHub with
          | none => simp [hf, h4, hg]
          | some a =>
            simp only [github_checkAndSetDefaults_state]
            rw [hf]
        · simp only [h4, if_false]
          by_cases h5 : m = JoinMethodCircleCI
          · simp only [h5, if_true]
            have hG : (defaultJoinMethod p.Spec).CircleCI = p.Spec.CircleCI := by rw [hf]
            rw [hG]
            cases hg : p.Spec.CircleCI with
            | none => simp [hf, h5, hg]
            | some a =>
              simp only [circleCI_checkAndSetDefaults_state]
              rw [hf]
          · simp only [h5, if_false]
            by_cases h6 : m = JoinMethodKubernetes
            · simp only [h6, if_true]
              have hG : (defaultJoinMethod p.Spec).Kubernetes = p.Spec.Kubernetes := by rw [hf]
              rw [hG]
              cases hg : p.Spec.Kubernetes with
              | none => simp [hf, h6, hg]
              | some a =>
                simp only [kubernetes_checkAndSetDefaults_state]
                rw [hf]
            · simp [h6, hf]

theorem defaultJoinMethod_allow (spec : ProvisionTokenSpecV2) :
    (defaultJoinMethod spec).Allow = spec.Allow := by
  rw [defaultJoinMethod_frame]

theorem hasAllowRules_iff (rules : List TokenRule) :
    decide (rules.length > 0) = true ↔ rules ≠ [] := by
  simp [List.length_pos]

theorem checkJoinMethod_token (p : ProvisionTokenV2)
    (hm : (defaultJoinMethod p.Spec).JoinMethod = JoinMethodToken) :
    (checkJoinMethod p).2 = none ↔ p.Spec.Allow = [] := by
  unfold checkJoinMethod
  simp only [hm, if_true]
  by_cases ha : p.Spec.Allow = []
  · simp [ha]
  · have := (hasAllowRules_iff p.Spec.Allow).mpr ha
    simp [ha, this]

theorem checkJoinMethod_ec2 (p : ProvisionTokenV2)
    (hm : (defaultJoinMethod p.Spec).JoinMethod = JoinMethodEC2) :
    (checkJoinMethod p).2 = none ↔ p.Spec.Allow ≠ [] ∧ ec2RuleLoop p.Spec.Allow = none := by
  have h1 : ¬ (JoinMethodEC2 = JoinMethodToken) := by decide
  unfold checkJoinMethod
  simp only [hm, h1, if_true, if_false, defaultJoinMethod_allow]
  by_cases ha : p.Spec.Allow = []
  · simp [ha]
  · have := (hasAllowRules_iff p.Spec.Allow).mpr ha
    simp only [this, Bool.not_true, Bool.false_eq_true, if_false]
    cases hl : ec2RuleLoop p.Spec.Allow with
    | none =>
      simp only [ha, ne_eq, not_false_eq_true, and_self, iff_true]
      split <;> rfl
    | some e => simp

theorem checkJoinMethod_iam (p : ProvisionTokenV2)
    (hm : (defaultJoinMethod p.Spec).JoinMethod = JoinMethodIAM) :
    (checkJoinMethod p).2 = none ↔ p.Spec.Allow ≠ [] ∧ iamRuleLoop p.Spec.Allow = none := by
  have h1 : ¬ (JoinMethodIAM = JoinMethodToken) := by decide
  have h2 : ¬ (JoinMethodIAM = JoinMethodEC2) := by decide
  unfold checkJoinMethod
  simp only [hm, h1, h2, if_true, if_false, defaultJoinMethod_allow]
  by_cases ha : p.Spec.Allow = []
  · simp [ha]
  · have := (hasAllowRules_iff p.Spec.Allow).mpr ha
    simp only [this, Bool.not_true, Bool.false_eq_true, if_false]
    cases hl : iamRuleLoop p.Spec.Allow with
    | none => simp [ha]
    | some e => simp

theorem checkJoinMethod_github (p : ProvisionTokenV2)
    (hm : (defaultJoinMethod p.Spec).JoinMethod = JoinMethodGitHub) :
    (checkJoinMethod p).2 = none ↔
      ∃ a, p.Spec.GitHub = some a ∧ a.checkAndSetDefaults.2 = none := by
  have h1 : ¬ (JoinMethodGitHub = JoinMethodToken) := by decide
  have h2 : ¬ (JoinMethodGitHub = JoinMethodEC2) := by decide
  have h3 : ¬ (JoinMethodGitHub = JoinMethodIAM) := by decide
  have hG : (defaultJoinMethod p.Spec).GitHub = p.Spec.GitHub := by
    rw [defaultJoinMethod_frame]
  unfold checkJoinMethod
  simp only [hm, h1, h2, h3, if_true, if_false, hG]
  cases hg : p.Spec.GitHub with
  | none => simp
  | some a => simp

theorem checkJoinMethod_circleCI (p : ProvisionTokenV2)
    (hm : (defaultJoinMethod p.Spec).JoinMethod = JoinMethodCircleCI) :
    (checkJoinMethod p).2 = none ↔
      ∃ a, p.Spec.CircleCI = some a ∧ a.checkAndSetDefaults.2 = none := by
  have h1 : ¬ (JoinMethodCircleCI = JoinMethodToken) := by decide
  have h2 : ¬ (JoinMethodCircleCI = JoinMethodEC2) := by decide
  have h3 : ¬ (JoinMethodCircleCI = JoinMethodIAM) := by decide
  have h4 : ¬ (JoinMethodCircleCI = JoinMethodGitHub) := by decide
  have hG : (defaultJoinMethod p.Spec).CircleCI = p.Spec.CircleCI := by
    rw [defaultJoinMethod_frame]
  unfold checkJoinMethod
  simp only [hm, h1, h2, h3, h4, if_true, if_false, hG]
  cases hg : p.Spec.CircleCI with
  | none => simp
  | some a => simp

theorem checkJoinMethod_kubernetes (p : ProvisionTokenV2)
    (hm : (defaultJoinMethod p.Spec).JoinMethod = JoinMethodKubernetes) :
    (checkJoinMethod p).2 = none ↔
      ∃ a, p.Spec.Kubernetes = some a ∧ a.checkAndSetDefaults.2 = none := by
  have h1 : ¬ (JoinMethodKubernetes = JoinMethodToken) := by decide
  have h2 : ¬ (JoinMethodKubernetes = JoinMethodEC2) := by decide
  have h3 : ¬ (JoinMethodKubernetes = JoinMethodIAM) := by decide
  have h4 : ¬ (JoinMethodKubernetes = JoinMethodGitHub) := by decide
  have h5 : ¬ (JoinMethodKubernetes = JoinMethodCircleCI) := by decide
  have hG : (defaultJoinMethod p.Spec).Kubernetes = p.Spec.Kubernetes := by
    rw [defaultJoinMethod_frame]
  unfold checkJoinMethod
  simp only [hm, h1, h2, h3, h4, h5, if_true, if_false, hG]
  cases hg : p.Spec.Kubernetes with
  | none => simp
  | some a => simp

theorem checkJoinMethod_unknown (p : ProvisionTokenV2)
    (hm : (defaultJoinMethod p.Spec).JoinMethod ∉ JoinMethods) :
    (checkJoinMethod p).2 =
      some (BadParameter "unknown join method %q" [(defaultJoinMethod p.Spec).JoinMethod]) := by
  simp only [JoinMethods, List.mem_cons, List.mem_singleton, not_or, List.mem_nil_iff,
    or_false] at hm
  obtain ⟨h1, h2, h3, h4, h5, h6⟩ := hm
  unfold checkJoinMethod
  simp only [h1, h2, h3, h4, h5, h6, if_false]

theorem kubernetes_checkAndSetDefaults_ok_iff (a : ProvisionTokenSpecV2Kubernetes) :
    a.checkAndSetDefaults.2 = none ↔ a.Allow ≠ [] ∧ kubernetesRuleLoop a.Allow = none := by
  unfold ProvisionTokenSpecV2Kubernetes.checkAndSetDefaults
  by_cases ha : a.Allow = []
  · simp [ha]
  · simp [ha]

/-- The validator's result is the result of the switch run on the token that the
method-independent checks leave, when these pass. -/
theorem CheckAndSetDefaults_of_common (d : Deps) (p : ProvisionTokenV2)
    (h : (checkCommon d p).2 = none) :
    p.CheckAndSetDefaults d = checkJoinMethod (checkCommon d p).1 := by
  unfold ProvisionTokenV2.CheckAndSetDefaults
  simp only [h]

theorem CheckAndSetDefaults_of_common_err (d : Deps) (p : ProvisionTokenV2) (e : Err)
    (h : (checkCommon d p).2 = some e) :
    p.CheckAndSetDefaults d = ((checkCommon d p).1, some e) := by
  unfold ProvisionTokenV2.CheckAndSetDefaults
  simp only [h]

theorem CheckAndSetDefaults_ok_iff (d : Deps) (p : ProvisionTokenV2) :
    (p.CheckAndSetDefaults d).2 = none ↔
      (checkCommon d p).2 = none ∧ (checkJoinMethod (checkCommon d p).1).2 = none := by
  cases h : (checkCommon d p).2 with
  | none => rw [CheckAndSetDefaults_of_common d p h]; simp
  | some e => rw [CheckAndSetDefaults_of_common_err d p e h]; simp

/-- What the validator leaves behind, whether it accepts or not: the static fields are
stamped, the metadata is as the metadata check leaves it, and of the specification only
the join method and the TTL can differ from the input. -/
theorem CheckAndSetDefaults_state (d : Deps) (p : ProvisionTokenV2) :
    (p.CheckAndSetDefaults d).1 =
      { Kind := d.KindToken, SubKind := p.SubKind, Version := d.V2,
        Metadata := (d.metadataCheck p.Metadata).1,
        Spec := { p.Spec with
          JoinMethod := (p.CheckAndSetDefaults d).1.Spec.JoinMethod
          AWSIIDTTL := (p.CheckAndSetDefaults d).1.Spec.AWSIIDTTL } } := by
  cases h : (checkCommon d p).2 with
  | none =>
    rw [CheckAndSetDefaults_of_common d p h]
    conv_lhs => rw [checkJoinMethod_state]
    rw [checkJoinMethod_state (checkCommon d p).1]
    simp only [checkCommon_state]
  | some e =>
    rw [CheckAndSetDefaults_of_common_err d p e h]
    simp only [checkCommon_state]

theorem CheckAndSetDefaults_roles (d : Deps) (p : ProvisionTokenV2) :
    (p.CheckAndSetDefaults d).1.Spec.Roles = p.Spec.Roles := by
  rw [CheckAndSetDefaults_state]

theorem CheckAndSetDefaults_botName (d : Deps) (p : ProvisionTokenV2) :
    (p.CheckAndSetDefaults d).1.Spec.BotName = p.Spec.BotName := by
  rw [CheckAndSetDefaults_state]

theorem CheckAndSetDefaults_allow (d : Deps) (p : ProvisionTokenV2) :
    (p.CheckAndSetDefaults d).1.Spec.Allow = p.Spec.Allow := by
  rw [CheckAndSetDefaults_state]

theorem CheckAndSetDefaults_joinMethod_of_ok (d : Deps) (p : ProvisionTokenV2)
    (h : (checkCommon d p).2 = none) :
    (p.CheckAndSetDefaults d).1.Spec.JoinMethod = (defaultJoinMethod p.Spec).JoinMethod := by
  rw [CheckAndSetDefaults_of_common d p h, checkJoinMethod_state, checkCommon_spec]

/-! ## The bot name and the bot role -/

/-- C1: `CheckAndSetDefaults` returns an error when the roles include the bot role and
`bot_name` is empty, and when `bot_name` is non-empty and the roles do not include the bot
role; so in every token it accepts `bot_name` is non-empty exactly when the roles contain
the bot role. -/
theorem CheckAndSetDefaults_bot_name_coupling (d : Deps) (p : ProvisionTokenV2) :
    (Include p.Spec.Roles d.RoleBot = true ∧ p.Spec.BotName = "" →
        (p.CheckAndSetDefaults d).2 ≠ none) ∧
    (p.Spec.BotName ≠ "" ∧ Include p.Spec.Roles d.RoleBot = false →
        (p.CheckAndSetDefaults d).2 ≠ none) ∧
    ((p.CheckAndSetDefaults d).2 = none →
        ((p.CheckAndSetDefaults d).1.Spec.BotName ≠ "" ↔
          Include (p.CheckAndSetDefaults d).1.Spec.Roles d.RoleBot = true)) := by
  have key : (p.CheckAndSetDefaults d).2 = none →
      (p.Spec.BotName ≠ "" ↔ Include p.Spec.Roles d.RoleBot = true) := fun h =>
    ((checkCommon_ok_iff d p).mp ((CheckAndSetDefaults_ok_iff d p).mp h).1).2.2.2
  refine ⟨?_, ?_, ?_⟩
  · rintro ⟨hi, hb⟩ hok
    exact ((key hok).mpr hi) hb
  · rintro ⟨hb, hi⟩ hok
    have := (key hok).mp hb
    rw [hi] at this
    exact Bool.false_ne_true this
  · intro hok
    rw [CheckAndSetDefaults_botName, CheckAndSetDefaults_roles]
    exact key hok

/-- C1, worked cases: the bot role without a bot name is rejected, a bot name without the
bot role is rejected, and an accepted bot token carries both. -/
theorem CheckAndSetDefaults_bot_name_coupling_witness :
    ((sampleToken { Roles := ["Bot"] }).CheckAndSetDefaults refDeps).2 ≠ none ∧
    ((sampleToken { Roles := ["Node"], BotName := "robot" }).CheckAndSetDefaults refDeps).2
        ≠ none ∧
    ((sampleToken { Roles := ["Bot"], BotName := "robot" }).CheckAndSetDefaults refDeps).2
        = none ∧
    (((sampleToken { Roles := ["Bot"], BotName := "robot" }).CheckAndSetDefaults
          refDeps).1.Spec.BotName ≠ "" ↔
      Include ((sampleToken { Roles := ["Bot"], BotName := "robot" }).CheckAndSetDefaults
          refDeps).1.Spec.Roles refDeps.RoleBot = true) :=
  ⟨(CheckAndSetDefaults_bot_name_coupling refDeps (sampleToken { Roles := ["Bot"] })).1
      ⟨by decide, by decide⟩,
   (CheckAndSetDefaults_bot_name_coupling refDeps
      (sampleToken { Roles := ["Node"], BotName := "robot" })).2.1 ⟨by decide, by decide⟩,
   by decide,
   (CheckAndSetDefaults_bot_name_coupling refDeps
      (sampleToken { Roles := ["Bot"], BotName := "robot" })).2.2 (by decide)⟩

/-! ## The default join method -/

/-- C2: when the join method is unspecified and `CheckAndSetDefaults` accepts the token,
the resulting join method is `ec2` if the input has at least one allow rule and `token` if
it has none; it is never `iam`, `github`, `circleci` or `kubernetes`. -/
theorem CheckAndSetDefaults_default_join_method (d : Deps) (p : ProvisionTokenV2)
    (hu : p.Spec.JoinMethod = JoinMethodUnspecified)
    (hok : (p.CheckAndSetDefaults d).2 = none) :
    (p.Spec.Allow ≠ [] → (p.CheckAndSetDefaults d).1.Spec.JoinMethod = JoinMethodEC2) ∧
    (p.Spec.Allow = [] → (p.CheckAndSetDefaults d).1.Spec.JoinMethod = JoinMethodToken) ∧
    (p.CheckAndSetDefaults d).1.Spec.JoinMethod ∉
      [JoinMethodIAM, JoinMethodGitHub, JoinMethodCircleCI, JoinMethodKubernetes] := by
  have hc := ((CheckAndSetDefaults_ok_iff d p).mp hok).1
  rw [CheckAndSetDefaults_joinMethod_of_ok d p hc, defaultJoinMethod_joinMethod]
  simp only [hu, if_true]
  by_cases ha : p.Spec.Allow = []
  · simp only [ha, ne_eq, not_true_eq_false, if_false, false_implies, true_implies, true_and]
    decide
  · simp only [ha, ne_eq, not_false_eq_true, if_true, true_implies, false_implies, true_and]
    decide

/-- C2, worked cases: with no join method given, one allow rule yields `ec2` and no allow
rule yields `token`. -/
theorem CheckAndSetDefaults_default_join_method_witness :
    ((sampleToken { Roles := ["Node"], Allow := [{ AWSAccount := "1234" }] }).CheckAndSetDefaults
        refDeps).1.Spec.JoinMethod = JoinMethodEC2 ∧
    ((sampleToken { Roles := ["Node"] }).CheckAndSetDefaults refDeps).1.Spec.JoinMethod
        = JoinMethodToken :=
  ⟨(CheckAndSetDefaults_default_join_method refDeps
      (sampleToken { Roles := ["Node"], Allow := [{ AWSAccount := "1234" }] })
      (by decide) (by decide)).1 (by decide),
   (CheckAndSetDefaults_default_join_method refDeps (sampleToken { Roles := ["Node"] })
      (by decide) (by decide)).2.1 (by decide)⟩

/-! ## The allow rules of each join method -/

/-- C3: for a token whose join method is `ec2`, given or obtained by default, and which
passes the method-independent checks, `CheckAndSetDefaults` succeeds exactly when there is
at least one allow rule and every rule has an empty `aws_arn` and a non-empty `aws_account`
or `aws_role`; so a rule with `aws_arn` set makes it fail whatever else the rule holds. -/
theorem CheckAndSetDefaults_ec2_iff (d : Deps) (p : ProvisionTokenV2)
    (hm : p.Spec.JoinMethod = JoinMethodEC2 ∨
      (p.Spec.JoinMethod = JoinMethodUnspecified ∧ p.Spec.Allow ≠ []))
    (hc : (checkCommon d p).2 = none) :
    ((p.CheckAndSetDefaults d).2 = none ↔
      p.Spec.Allow ≠ [] ∧
        ∀ r ∈ p.Spec.Allow, r.AWSARN = "" ∧ (r.AWSAccount ≠ "" ∨ r.AWSRole ≠ "")) ∧
    ((∃ r ∈ p.Spec.Allow, r.AWSARN ≠ "") → (p.CheckAndSetDefaults d).2 ≠ none) := by
  have hjm : (defaultJoinMethod (checkCommon d p).1.Spec).JoinMethod = JoinMethodEC2 := by
    rw [checkCommon_spec, defaultJoinMethod_joinMethod]
    rcases hm with h | ⟨h, ha⟩
    · have : ¬ (JoinMethodEC2 = JoinMethodUnspecified) := by decide
      simp [h, this]
    · simp [h, ha]
  have hiff : (p.CheckAndSetDefaults d).2 = none ↔
      p.Spec.Allow ≠ [] ∧
        ∀ r ∈ p.Spec.Allow, r.AWSARN = "" ∧ (r.AWSAccount ≠ "" ∨ r.AWSRole ≠ "") := by
    rw [CheckAndSetDefaults_of_common d p hc, checkJoinMethod_ec2 _ hjm, checkCommon_spec,
      ec2RuleLoop_none_iff]
  refine ⟨hiff, ?_⟩
  rintro ⟨r, hr, harn⟩ hok
  exact harn ((hiff.mp hok).2 r hr).1

/-- C3, worked cases: an `ec2` token with an account rule is accepted; the same rule with
an ARN added is rejected. -/
theorem CheckAndSetDefaults_ec2_iff_witness :
    ((ruleSample "ec2" { AWSAccount := "1234" }).CheckAndSetDefaults refDeps).2 = none ∧
    ((ruleSample "ec2"
        { AWSAccount := "1234", AWSARN := "arn:aws:iam::1234:role/r" }).CheckAndSetDefaults
      refDeps).2 ≠ none :=
  ⟨(CheckAndSetDefaults_ec2_iff refDeps
      (ruleSample "ec2" { AWSAccount := "1234" })
      (Or.inl (by decide)) (by decide)).1.mpr (by decide),
   (CheckAndSetDefaults_ec2_iff refDeps
      (ruleSample "ec2" { AWSAccount := "1234", AWSARN := "arn:aws:iam::1234:role/r" })
      (Or.inl (by decide)) (by decide)).2 (by decide)⟩

/-- C4: for a token with join method `iam` which passes the method-independent checks,
`CheckAndSetDefaults` succeeds exactly when there is at least one allow rule and every rule
has an empty `aws_role`, an empty `aws_regions` list and a non-empty `aws_account` or
`aws_arn`. -/
theorem CheckAndSetDefaults_iam_iff (d : Deps) (p : ProvisionTokenV2)
    (hm : p.Spec.JoinMethod = JoinMethodIAM)
    (hc : (checkCommon d p).2 = none) :
    (p.CheckAndSetDefaults d).2 = none ↔
      p.Spec.Allow ≠ [] ∧
        ∀ r ∈ p.Spec.Allow, r.AWSRole = "" ∧ r.AWSRegions = [] ∧
          (r.AWSAccount ≠ "" ∨ r.AWSARN ≠ "") := by
  have hjm : (defaultJoinMethod (checkCommon d p).1.Spec).JoinMethod = JoinMethodIAM := by
    have : ¬ (JoinMethodIAM = JoinMethodUnspecified) := by decide
    rw [checkCommon_spec, defaultJoinMethod_joinMethod]
    simp [hm, this]
  rw [CheckAndSetDefaults_of_common d p hc, checkJoinMethod_iam _ hjm, checkCommon_spec,
    iamRuleLoop_none_iff]

/-- C4, worked cases: an `iam` token whose single rule sets only `aws_account` is accepted;
the same rule with a non-empty `aws_regions` list added is rejected. -/
theorem CheckAndSetDefaults_iam_iff_witness :
    ((ruleSample "iam" { AWSAccount := "1234" }).CheckAndSetDefaults refDeps).2 = none ∧
    ((ruleSample "iam"
        { AWSAccount := "1234", AWSRegions := ["us-west-2"] }).CheckAndSetDefaults
      refDeps).2 ≠ none :=
  ⟨(CheckAndSetDefaults_iam_iff refDeps
      (ruleSample "iam" { AWSAccount := "1234" })
      (by decide) (by decide)).mpr (by decide),
   fun h => absurd ((CheckAndSetDefaults_iam_iff refDeps
      (ruleSample "iam" { AWSAccount := "1234", AWSRegions := ["us-west-2"] })
      (by decide) (by decide)).mp h) (by decide)⟩

/-- C5: for a token with join method `kubernetes` which passes the method-independent
checks, `CheckAndSetDefaults` succeeds exactly when the kubernetes configuration is present,
its allow list is non-empty and every rule's service account is non-empty and contains
exactly one `:`. -/
theorem CheckAndSetDefaults_kubernetes_iff (d : Deps) (p : ProvisionTokenV2)
    (hm : p.Spec.JoinMethod = JoinMethodKubernetes)
    (hc : (checkCommon d p).2 = none) :
    (p.CheckAndSetDefaults d).2 = none ↔
      ∃ cfg, p.Spec.Kubernetes = some cfg ∧ cfg.Allow ≠ [] ∧
        ∀ r ∈ cfg.Allow, r.ServiceAccount ≠ "" ∧ r.ServiceAccount.toList.count ':' = 1 := by
  have hjm :
      (defaultJoinMethod (checkCommon d p).1.Spec).JoinMethod = JoinMethodKubernetes := by
    have : ¬ (JoinMethodKubernetes = JoinMethodUnspecified) := by decide
    rw [checkCommon_spec, defaultJoinMethod_joinMethod]
    simp [hm, this]
  rw [CheckAndSetDefaults_of_common d p hc, checkJoinMethod_kubernetes _ hjm, checkCommon_spec]
  constructor
  · rintro ⟨a, ha, hk⟩
    rw [kubernetes_checkAndSetDefaults_ok_iff, kubernetesRuleLoop_none_iff] at hk
    exact ⟨a, ha, hk⟩
  · rintro ⟨a, ha, hk⟩
    refine ⟨a, ha, ?_⟩
    rw [kubernetes_checkAndSetDefaults_ok_iff, kubernetesRuleLoop_none_iff]
    exact hk

/-- C5, worked cases: the service account `ns:name` is accepted; `ns`, `ns:name:extra` and
the empty service account are rejected. -/
theorem CheckAndSetDefaults_kubernetes_iff_witness :
    ((kubernetesSample "ns:name").CheckAndSetDefaults refDeps).2 = none ∧
    ((kubernetesSample "ns").CheckAndSetDefaults refDeps).2 ≠ none ∧
    ((kubernetesSample "ns:name:extra").CheckAndSetDefaults refDeps).2 ≠ none ∧
    ((kubernetesSample "").CheckAndSetDefaults refDeps).2 ≠ none :=
  ⟨(CheckAndSetDefaults_kubernetes_iff refDeps (kubernetesSample "ns:name")
      (by decide) (by decide)).mpr ⟨_, rfl, by decide, by decide⟩,
   fun h => absurd ((CheckAndSetDefaults_kubernetes_iff refDeps (kubernetesSample "ns")
      (by decide) (by decide)).mp h) (by decide),
   fun h => absurd ((CheckAndSetDefaults_kubernetes_iff refDeps
      (kubernetesSample "ns:name:extra") (by decide) (by decide)).mp h) (by decide),
   fun h => absurd ((CheckAndSetDefaults_kubernetes_iff refDeps (kubernetesSample "")
      (by decide) (by decide)).mp h) (by decide)⟩

/-- C6: for a token with join method `token`, given explicitly, which passes the
method-independent checks, `CheckAndSetDefaults` fails whenever the allow-rule list is
non-empty and succeeds whenever it is empty. -/
theorem CheckAndSetDefaults_token_iff (d : Deps) (p : ProvisionTokenV2)
    (hm : p.Spec.JoinMethod = JoinMethodToken)
    (hc : (checkCommon d p).2 = none) :
    (p.Spec.Allow ≠ [] → (p.CheckAndSetDefaults d).2 ≠ none) ∧
    (p.Spec.Allow = [] → (p.CheckAndSetDefaults d).2 = none) := by
  have hjm : (defaultJoinMethod (checkCommon d p).1.Spec).JoinMethod = JoinMethodToken := by
    have : ¬ (JoinMethodToken = JoinMethodUnspecified) := by decide
    rw [checkCommon_spec, defaultJoinMethod_joinMethod]
    simp [hm, this]
  have hiff : (p.CheckAndSetDefaults d).2 = none ↔ p.Spec.Allow = [] := by
    rw [CheckAndSetDefaults_of_common d p hc, checkJoinMethod_token _ hjm, checkCommon_spec]
  exact ⟨fun ha hok => ha (hiff.mp hok), hiff.mpr⟩

/-- C6, worked cases: a `token` token with an allow rule is rejected, one without is
accepted. -/
theorem CheckAndSetDefaults_token_iff_witness :
    ((ruleSample "token" { AWSAccount := "1234" }).CheckAndSetDefaults refDeps).2 ≠ none ∧
    ((sampleToken { Roles := ["Node"], JoinMethod := "token" }).CheckAndSetDefaults
        refDeps).2 = none :=
  ⟨(CheckAndSetDefaults_token_iff refDeps
      (ruleSample "token" { AWSAccount := "1234" })
      (by decide) (by decide)).1 (by decide),
   (CheckAndSetDefaults_token_iff refDeps
      (sampleToken { Roles := ["Node"], JoinMethod := "token" })
      (by decide) (by decide)).2 (by decide)⟩

theorem defaultJoinMethod_ne_unspecified (spec : ProvisionTokenSpecV2) :
    (defaultJoinMethod spec).JoinMethod ≠ JoinMethodUnspecified := by
  rw [defaultJoinMethod_joinMethod]
  by_cases h : spec.JoinMethod = JoinMethodUnspecified
  · by_cases ha : spec.Allow = []
    · simp only [h, ha, if_true, ne_eq, not_true_eq_false, if_false]; decide
    · simp only [h, ha, if_true, ne_eq, not_false_eq_true]; decide
  · simp only [h, if_false, ne_eq, not_false_eq_true]

theorem defaultJoinMethod_of_specified (spec : ProvisionTokenSpecV2)
    (h : spec.JoinMethod ≠ JoinMethodUnspecified) : defaultJoinMethod spec = spec := by
  unfold defaultJoinMethod
  simp only [h, if_false]

/-- Whether the switch accepts is decided by the defaulted join method and by the
configuration that the switch reads. -/
theorem checkJoinMethod_ok_congr (p q : ProvisionTokenV2)
    (hm : (defaultJoinMethod p.Spec).JoinMethod = (defaultJoinMethod q.Spec).JoinMethod)
    (hA : p.Spec.Allow = q.Spec.Allow) (hG : p.Spec.GitHub = q.Spec.GitHub)
    (hC : p.Spec.CircleCI = q.Spec.CircleCI) (hK : p.Spec.Kubernetes = q.Spec.Kubernetes)
    (hp : (checkJoinMethod p).2 = none) : (checkJoinMethod q).2 = none := by
  by_cases hin : (defaultJoinMethod p.Spec).JoinMethod ∈ JoinMethods
  · simp only [JoinMethods, List.mem_cons, List.mem_singleton, List.mem_nil_iff,
      or_false] at hin
    rcases hin with h | h | h | h | h | h
    · rw [checkJoinMethod_token p h] at hp
      rw [checkJoinMethod_token q (hm ▸ h), ← hA]; exact hp
    · rw [checkJoinMethod_ec2 p h] at hp
      rw [checkJoinMethod_ec2 q (hm ▸ h), ← hA]; exact hp
    · rw [checkJoinMethod_iam p h] at hp
      rw [checkJoinMethod_iam q (hm ▸ h), ← hA]; exact hp
    · rw [checkJoinMethod_github p h] at hp
      rw [checkJoinMethod_github q (hm ▸ h), ← hG]; exact hp
    · rw [checkJoinMethod_circleCI p h] at hp
      rw [checkJoinMethod_circleCI q (hm ▸ h), ← hC]; exact hp
    · rw [checkJoinMethod_kubernetes p h] at hp
      rw [checkJoinMethod_kubernetes q (hm ▸ h), ← hK]; exact hp
  · rw [checkJoinMethod_unknown p hin] at hp
    exact absurd hp (by simp)

theorem timeMinute_five_ne_zero : (5 * timeMinute : Duration) ≠ 0 := by decide

theorem refDeps_metadataIdempotent : refDeps.MetadataIdempotent := by
  intro m hm
  have hm' : (refMetadataCheck m).2 = none := hm
  show refMetadataCheck (refMetadataCheck m).1 = ((refMetadataCheck m).1, none)
  unfold refMetadataCheck at hm' ⊢
  by_cases hn : m.Name = ""
  · simp [hn] at hm'
  · simp [hn]

theorem refDeps_metadataKeepsNameAndExpiry : refDeps.MetadataKeepsNameAndExpiry := by
  intro m
  show (refMetadataCheck m).1.Name = m.Name ∧ (refMetadataCheck m).1.Expiry = m.Expiry
  unfold refMetadataCheck
  by_cases hn : m.Name = ""
  · simp [hn]
  · simp [hn]

/-! ## Idempotence -/

/-- C7: validation is idempotent.  If `CheckAndSetDefaults` succeeds on `t` and leaves it
as `t'`, then `CheckAndSetDefaults` on `t'` succeeds and leaves `t'` as it is, every field
included.  The metadata check, which lives outside `provisioning.go`, is taken to be
idempotent. -/
theorem CheckAndSetDefaults_idempotent (d : Deps) (hd : d.MetadataIdempotent)
    (t t' : ProvisionTokenV2) (h : t.CheckAndSetDefaults d = (t', none)) :
    t'.CheckAndSetDefaults d = (t', none) := by
  have hok : (t.CheckAndSetDefaults d).2 = none := by rw [h]
  have hst : (t.CheckAndSetDefaults d).1 = t' := by rw [h]
  obtain ⟨hc, hj⟩ := (CheckAndSetDefaults_ok_iff d t).mp hok
  obtain ⟨hmeta, hroles, hrc, hbot⟩ := (checkCommon_ok_iff d t).mp hc
  -- the shape of `t'`
  have hshape := CheckAndSetDefaults_state d t
  rw [hst] at hshape
  have hjm : t'.Spec.JoinMethod = (defaultJoinMethod t.Spec).JoinMethod := by
    rw [← hst]; exact CheckAndSetDefaults_joinMethod_of_ok d t hc
  have hjm0 : t'.Spec.JoinMethod ≠ JoinMethodUnspecified := by
    rw [hjm]; exact defaultJoinMethod_ne_unspecified _
  have hR : t'.Spec.Roles = t.Spec.Roles := by rw [hshape]
  have hB : t'.Spec.BotName = t.Spec.BotName := by rw [hshape]
  have hA : t'.Spec.Allow = t.Spec.Allow := by rw [hshape]
  have hG : t'.Spec.GitHub = t.Spec.GitHub := by rw [hshape]
  have hC : t'.Spec.CircleCI = t.Spec.CircleCI := by rw [hshape]
  have hK : t'.Spec.Kubernetes = t.Spec.Kubernetes := by rw [hshape]
  have hM : t'.Metadata = (d.metadataCheck t.Metadata).1 := by rw [hshape]
  have hKind : t'.Kind = d.KindToken := by rw [hshape]
  have hVer : t'.Version = d.V2 := by rw [hshape]
  have hmeta' := hd t.Metadata hmeta
  rw [← hM] at hmeta'
  -- the method-independent checks pass again and change nothing
  have hc1 : (checkCommon d t').1 = t' := by
    rw [checkCommon_state, hmeta', ← hKind, ← hVer]
  have hc2 : (checkCommon d t').2 = none := by
    rw [checkCommon_ok_iff, hmeta', hR, hB]
    exact ⟨rfl, hroles, hrc, hbot⟩
  rw [CheckAndSetDefaults_of_common d t' hc2, hc1]
  -- the switch accepts again and changes nothing
  have hdef : defaultJoinMethod t'.Spec = t'.Spec := defaultJoinMethod_of_specified _ hjm0
  have hj' : (checkJoinMethod t').2 = none := by
    refine checkJoinMethod_ok_congr (checkCommon d t).1 t' ?_ ?_ ?_ ?_ ?_ hj
    · rw [checkCommon_spec, hdef, hjm]
    · rw [checkCommon_spec, hA]
    · rw [checkCommon_spec, hG]
    · rw [checkCommon_spec, hC]
    · rw [checkCommon_spec, hK]
  have httl : ¬ ((defaultJoinMethod t'.Spec).JoinMethod = JoinMethodEC2 ∧
      (checkJoinMethod t').2 = none ∧ t'.Spec.AWSIIDTTL = 0) := by
    rintro ⟨he, -, hz⟩
    rw [hdef, hjm] at he
    have hts : t'.Spec.AWSIIDTTL =
        (checkJoinMethod (checkCommon d t).1).1.Spec.AWSIIDTTL := by
      rw [← hst, CheckAndSetDefaults_of_common d t hc]
    rw [checkJoinMethod_state, checkCommon_spec] at hts
    simp only [he, hj, true_and] at hts
    by_cases h0 : t.Spec.AWSIIDTTL = 0
    · simp only [h0, if_true] at hts
      exact timeMinute_five_ne_zero (hts ▸ hz)
    · simp only [h0, if_false] at hts
      exact h0 (hts ▸ hz)
  refine Prod.ext ?_ hj'
  rw [checkJoinMethod_state]
  rw [hdef] at httl
  simp only [httl, if_false, hdef]

/-- C7, worked case: the `ec2` sample is accepted with its join method and TTL defaulted,
and validating the result again returns it unchanged. -/
theorem CheckAndSetDefaults_idempotent_witness :
    (ec2Sample.CheckAndSetDefaults refDeps).2 = none ∧
    (ec2Sample.CheckAndSetDefaults refDeps).1.Spec.JoinMethod = JoinMethodEC2 ∧
    (ec2Sample.CheckAndSetDefaults refDeps).1.Spec.AWSIIDTTL = 300000000000 ∧
    (ec2Sample.CheckAndSetDefaults refDeps).1.CheckAndSetDefaults refDeps =
      ((ec2Sample.CheckAndSetDefaults refDeps).1, none) :=
  ⟨by decide, by decide, by decide,
   CheckAndSetDefaults_idempotent refDeps refDeps_metadataIdempotent ec2Sample
     (ec2Sample.CheckAndSetDefaults refDeps).1 (by decide)⟩

/-! ## The legacy shape -/

theorem build_roles (d : Deps) (v : ProvisionTokenV1) : (v.build d).Spec.Roles = v.Roles := by
  unfold ProvisionTokenV1.build ProvisionTokenV2.SetExpiry
  simp only []
  split <;> rfl

theorem build_name (d : Deps) (v : ProvisionTokenV1) :
    (v.build d).Metadata.Name = v.Token := by
  unfold ProvisionTokenV1.build ProvisionTokenV2.SetExpiry Metadata.SetExpiry
  simp only []
  split <;> rfl

theorem build_expiry (d : Deps) (v : ProvisionTokenV1) :
    (v.build d).Metadata.Expiry = v.Expires := by
  unfold ProvisionTokenV1.build ProvisionTokenV2.SetExpiry Metadata.SetExpiry
  simp only []
  by_cases hz : v.Expires.IsZero = true
  · have hv : v.Expires = Time.zero := by
      cases hv : v.Expires with
      | mk n =>
        rw [hv] at hz
        simp only [Time.IsZero, beq_iff_eq] at hz
        simp only [Time.zero, hz]
    have hz0 : Time.zero.IsZero = true := by decide
    simp only [Metadata.Expiry, hv, hz0, Bool.not_true, Bool.false_eq_true, if_false]
  · simp only [hz, Bool.not_eq_true, Bool.not_false, if_true, Metadata.Expiry]

/-- The specification of the built token: the roles and nothing else. -/
theorem build_spec (d : Deps) (v : ProvisionTokenV1) :
    (v.build d).Spec = { Roles := v.Roles } := by
  unfold ProvisionTokenV1.build ProvisionTokenV2.SetExpiry
  simp only []
  split <;> rfl

/-- C8: the legacy round trip keeps the representable fields.  For every token `t`, accepted
by `CheckAndSetDefaults` or not, the token `t.V1().V2()` has the name, the roles (same
elements, same order) and the `Expiry()` of `t`, the zero time of a token without expiry
included.  The metadata check, which lives outside `provisioning.go`, is taken to leave
name and expiry alone. -/
theorem V1_V2_preserves_name_roles_expiry (d : Deps) (hd : d.MetadataKeepsNameAndExpiry)
    (t : ProvisionTokenV2) :
    (t.V1.V2 d).GetName = t.GetName ∧ (t.V1.V2 d).GetRoles = t.GetRoles ∧
      (t.V1.V2 d).Expiry = t.Expiry := by
  unfold ProvisionTokenV1.V2 ProvisionTokenV2.GetName ProvisionTokenV2.GetRoles
    ProvisionTokenV2.Expiry
  rw [CheckAndSetDefaults_state]
  simp only []
  obtain ⟨hn, he⟩ := hd (t.V1.build d).Metadata
  refine ⟨?_, ?_, ?_⟩
  · rw [hn, build_name]; rfl
  · rw [build_roles]; rfl
  · rw [he, build_expiry]; rfl

/-- C8, worked cases: the round trip of the accepted `ec2` sample keeps its name, role and
expiry, and the round trip of an accepted token without expiry has the zero expiry. -/
theorem V1_V2_preserves_name_roles_expiry_witness :
    (((ec2Sample.CheckAndSetDefaults refDeps).1.V1.V2 refDeps).GetName = "tok" ∧
      ((ec2Sample.CheckAndSetDefaults refDeps).1.V1.V2 refDeps).GetRoles = ["Node"] ∧
      ((ec2Sample.CheckAndSetDefaults refDeps).1.V1.V2 refDeps).Expiry
        = { nanos := 1700000000000000000 }) ∧
    ((botSample.CheckAndSetDefaults refDeps).1.V1.V2 refDeps).Expiry = Time.zero :=
  ⟨V1_V2_preserves_name_roles_expiry refDeps refDeps_metadataKeepsNameAndExpiry
      (ec2Sample.CheckAndSetDefaults refDeps).1,
   (V1_V2_preserves_name_roles_expiry refDeps refDeps_metadataKeepsNameAndExpiry
      (botSample.CheckAndSetDefaults refDeps).1).2.2⟩

/-- The verdict of the validator on the token rebuilt from a legacy token. -/
theorem build_accepted_iff (d : Deps) (v : ProvisionTokenV1) :
    ((v.build d).CheckAndSetDefaults d).2 = none ↔
      (d.metadataCheck (v.build d).Metadata).2 = none ∧ v.Roles ≠ [] ∧
        d.rolesCheck v.Roles = none ∧ Include v.Roles d.RoleBot = false := by
  have hm : (defaultJoinMethod (checkCommon d (v.build d)).1.Spec).JoinMethod
      = JoinMethodToken := by
    rw [checkCommon_spec, build_spec, defaultJoinMethod_joinMethod]
    simp [JoinMethodUnspecified]
  rw [CheckAndSetDefaults_ok_iff, checkJoinMethod_token _ hm, checkCommon_spec,
    checkCommon_ok_iff, build_spec]
  simp only [ne_eq, not_true_eq_false, false_iff, Bool.not_eq_true, and_true]

/-- The join method that `V2` leaves when the validator accepts the rebuilt token. -/
theorem V2_joinMethod_of_accepted (d : Deps) (v : ProvisionTokenV1)
    (h : ((v.build d).CheckAndSetDefaults d).2 = none) :
    (v.V2 d).Spec.JoinMethod = JoinMethodToken := by
  unfold ProvisionTokenV1.V2
  rw [CheckAndSetDefaults_joinMethod_of_ok d _ ((CheckAndSetDefaults_ok_iff d _).mp h).1,
    build_spec, defaultJoinMethod_joinMethod]
  simp [JoinMethodUnspecified]

/-- C9, as amended: for every token accepted by `CheckAndSetDefaults`, read before the
call (`t`) or as the call leaves it, the token `u.V1().V2()` has an empty allow-rule list,
an empty bot name, no suggested labels and no github, circleci or kubernetes configuration;
its join method is `token` when the roles do not include the bot role and the metadata check
accepts the rebuilt metadata. -/
theorem V1_V2_resets_other_fields (d : Deps) (t u : ProvisionTokenV2)
    (hacc : (t.CheckAndSetDefaults d).2 = none)
    (hu : u = t ∨ u = (t.CheckAndSetDefaults d).1) :
    (u.V1.V2 d).Spec.Allow = [] ∧ (u.V1.V2 d).Spec.BotName = "" ∧
    (u.V1.V2 d).Spec.SuggestedLabels = [] ∧
    (u.V1.V2 d).Spec.SuggestedAgentMatcherLabels = [] ∧
    (u.V1.V2 d).Spec.GitHub = none ∧ (u.V1.V2 d).Spec.CircleCI = none ∧
    (u.V1.V2 d).Spec.Kubernetes = none ∧
    (Include u.Spec.Roles d.RoleBot = false →
      (d.metadataCheck (u.V1.build d).Metadata).2 = none →
      (u.V1.V2 d).Spec.JoinMethod = JoinMethodToken) := by
  have hfields : (u.V1.V2 d).Spec =
      { ({ Roles := u.Spec.Roles } : ProvisionTokenSpecV2) with
        JoinMethod := (u.V1.V2 d).Spec.JoinMethod
        AWSIIDTTL := (u.V1.V2 d).Spec.AWSIIDTTL } := by
    unfold ProvisionTokenV1.V2
    conv_lhs => rw [CheckAndSetDefaults_state]
    rw [build_spec]; rfl
  refine ⟨by rw [hfields], by rw [hfields], by rw [hfields], by rw [hfields],
    by rw [hfields], by rw [hfields], by rw [hfields], ?_⟩
  intro hbot hmeta
  obtain ⟨-, hroles, hrc, -⟩ :=
    (checkCommon_ok_iff d t).mp ((CheckAndSetDefaults_ok_iff d t).mp hacc).1
  have hR : u.Spec.Roles = t.Spec.Roles := by
    rcases hu with h | h
    · rw [h]
    · rw [h, CheckAndSetDefaults_roles]
  apply V2_joinMethod_of_accepted
  rw [build_accepted_iff]
  exact ⟨hmeta, by show u.Spec.Roles ≠ []; rw [hR]; exact hroles,
    by show d.rolesCheck u.Spec.Roles = none; rw [hR]; exact hrc, hbot⟩

/-- C9 as amended, worked case: the accepted `ec2` sample, as the validator leaves it, comes
back from the round trip with join method `token` and no allow rule. -/
theorem V1_V2_resets_other_fields_witness :
    ((ec2Sample.CheckAndSetDefaults refDeps).1.V1.V2 refDeps).Spec.Allow = [] ∧
    ((ec2Sample.CheckAndSetDefaults refDeps).1.V1.V2 refDeps).Spec.JoinMethod
      = JoinMethodToken :=
  ⟨(V1_V2_resets_other_fields refDeps ec2Sample (ec2Sample.CheckAndSetDefaults refDeps).1
      (by decide) (Or.inr rfl)).1,
   (V1_V2_resets_other_fields refDeps ec2Sample (ec2Sample.CheckAndSetDefaults refDeps).1
      (by decide) (Or.inr rfl)).2.2.2.2.2.2.2 (by decide) (by decide)⟩

/-- C9, counterexample: the bot sample is accepted (with join method `token`), yet the
round trip of the accepted token, and of the token as given, has the unspecified join
method and not `token`: the rebuilt token has the bot role without a bot name, so the
validator stops before it defaults the join method. -/
theorem V1_V2_bot_join_method_unspecified :
    (botSample.CheckAndSetDefaults refDeps).2 = none ∧
    (botSample.CheckAndSetDefaults refDeps).1.Spec.JoinMethod = JoinMethodToken ∧
    ((botSample.CheckAndSetDefaults refDeps).1.V1.V2 refDeps).Spec.JoinMethod
      = JoinMethodUnspecified ∧
    ((botSample.CheckAndSetDefaults refDeps).1.V1.V2 refDeps).Spec.JoinMethod
      ≠ JoinMethodToken ∧
    (botSample.V1.V2 refDeps).Spec.JoinMethod ≠ JoinMethodToken := by
  decide

/-- C10, as amended: `V2` returns the rebuilt token as `CheckAndSetDefaults` leaves it and
does not report the verdict.  The validator accepts the rebuilt token exactly when the
metadata check passes and the roles are non-empty, well-formed and without the bot role;
in that case the token returned has join method `token`. -/
theorem V2_accepted_iff_and_join_method (d : Deps) (v : ProvisionTokenV1) :
    v.V2 d = ((v.build d).CheckAndSetDefaults d).1 ∧
    (((v.build d).CheckAndSetDefaults d).2 = none ↔
      (d.metadataCheck (v.build d).Metadata).2 = none ∧ v.Roles ≠ [] ∧
        d.rolesCheck v.Roles = none ∧ Include v.Roles d.RoleBot = false) ∧
    (((v.build d).CheckAndSetDefaults d).2 = none →
      (v.V2 d).Spec.JoinMethod = JoinMethodToken) ∧
    ProvisionTokensFromV1 d [v] = [v.V2 d] :=
  ⟨rfl, build_accepted_iff d v, V2_joinMethod_of_accepted d v, rfl⟩

/-- C10 as amended, worked case: the legacy token with one role is rebuilt into a token
that the validator accepts, with join method `token`. -/
theorem V2_accepted_iff_and_join_method_witness :
    ((legacyNode.build refDeps).CheckAndSetDefaults refDeps).2 = none ∧
    (legacyNode.V2 refDeps).Spec.JoinMethod = JoinMethodToken :=
  ⟨by decide, (V2_accepted_iff_and_join_method refDeps legacyNode).2.2.1 (by decide)⟩

/-- C10, counterexample: for the legacy token without roles the validator run by `V2`
reports an error, and `V2` and `ProvisionTokensFromV1` hand the token back all the same;
the token handed back has no join method and the validator rejects it. -/
theorem V2_returns_rejected_token :
    ((legacyNoRoles.build refDeps).CheckAndSetDefaults refDeps).2
      = some (BadParameter "provisioning token is missing roles" []) ∧
    ProvisionTokensFromV1 refDeps [legacyNoRoles] = [legacyNoRoles.V2 refDeps] ∧
    (legacyNoRoles.V2 refDeps).Spec.JoinMethod = JoinMethodUnspecified ∧
    (legacyNoRoles.V2 refDeps).Spec.JoinMethod ≠ JoinMethodToken ∧
    ((legacyNoRoles.V2 refDeps).CheckAndSetDefaults refDeps).2 ≠ none := by
  decide

/-! ## The federated methods -/

theorem githubRuleLoop_none_iff (rules : List GitHubRule) :
    githubRuleLoop rules = none ↔
      ∀ r ∈ rules, r.Repository ≠ "" ∨ r.RepositoryOwner ≠ "" ∨ r.Sub ≠ "" := by
  induction rules with
  | nil => simp [githubRuleLoop]
  | cons r rest ih =>
    unfold githubRuleLoop
    simp only []
    by_cases h1 : r.Repository = ""
    · by_cases h2 : r.RepositoryOwner = ""
      · by_cases h3 : r.Sub = ""
        · simp [h1, h2, h3]
        · simp [h1, h2, h3, ih]
      · simp [h1, h2, ih]
    · simp [h1, ih]

theorem github_checkAndSetDefaults_ok_iff (a : ProvisionTokenSpecV2GitHub) :
    a.checkAndSetDefaults.2 = none ↔ a.Allow ≠ [] ∧ githubRuleLoop a.Allow = none := by
  unfold ProvisionTokenSpecV2GitHub.checkAndSetDefaults
  by_cases ha : a.Allow = []
  · simp [ha]
  · simp [ha]

theorem circleCIRuleLoop_none_iff (rules : List CircleCIRule) :
    circleCIRuleLoop rules = none ↔ ∀ r ∈ rules, r.ProjectID ≠ "" ∨ r.ContextID ≠ "" := by
  induction rules with
  | nil => simp [circleCIRuleLoop]
  | cons r rest ih =>
    unfold circleCIRuleLoop
    simp only []
    by_cases h1 : r.ProjectID = ""
    · by_cases h2 : r.ContextID = ""
      · simp [h1, h2]
      · simp [h1, h2, ih]
    · simp [h1, ih]

theorem circleCI_checkAndSetDefaults_ok_iff (a : ProvisionTokenSpecV2CircleCI) :
    a.checkAndSetDefaults.2 = none ↔
      a.Allow ≠ [] ∧ a.OrganizationID ≠ "" ∧ circleCIRuleLoop a.Allow = none := by
  unfold ProvisionTokenSpecV2CircleCI.checkAndSetDefaults
  by_cases ha : a.Allow = []
  · simp [ha]
  · by_cases ho : a.OrganizationID = ""
    · simp [ha, ho]
    · simp [ha, ho]

/-- The defaulted join method of a token whose join method is given. -/
theorem defaultJoinMethod_common_of_specified (d : Deps) (p : ProvisionTokenV2)
    (h : p.Spec.JoinMethod ≠ JoinMethodUnspecified) :
    (defaultJoinMethod (checkCommon d p).1.Spec).JoinMethod = p.Spec.JoinMethod := by
  rw [checkCommon_spec, defaultJoinMethod_of_specified _ h]

/-- C12: for a token with join method `github` which passes the method-independent checks,
`CheckAndSetDefaults` succeeds exactly when the github configuration is present, its allow
list has at least one rule and every rule has at least one of `repository`,
`repository_owner` and `sub` non-empty. -/
theorem CheckAndSetDefaults_github_iff (d : Deps) (p : ProvisionTokenV2)
    (hm : p.Spec.JoinMethod = JoinMethodGitHub)
    (hc : (checkCommon d p).2 = none) :
    (p.CheckAndSetDefaults d).2 = none ↔
      ∃ cfg, p.Spec.GitHub = some cfg ∧ cfg.Allow ≠ [] ∧
        ∀ r ∈ cfg.Allow, r.Repository ≠ "" ∨ r.RepositoryOwner ≠ "" ∨ r.Sub ≠ "" := by
  have hjm : (defaultJoinMethod (checkCommon d p).1.Spec).JoinMethod = JoinMethodGitHub := by
    have : p.Spec.JoinMethod ≠ JoinMethodUnspecified := by rw [hm]; decide
    rw [defaultJoinMethod_common_of_specified d p this, hm]
  rw [CheckAndSetDefaults_of_common d p hc, checkJoinMethod_github _ hjm, checkCommon_spec]
  constructor
  · rintro ⟨a, ha, hk⟩
    rw [github_checkAndSetDefaults_ok_iff, githubRuleLoop_none_iff] at hk
    exact ⟨a, ha, hk⟩
  · rintro ⟨a, ha, hk⟩
    refine ⟨a, ha, ?_⟩
    rw [github_checkAndSetDefaults_ok_iff, githubRuleLoop_none_iff]
    exact hk

/-- C12, worked cases: a `github` token whose one rule names a repository is accepted; with
a rule that sets none of the three fields it is rejected. -/
theorem CheckAndSetDefaults_github_iff_witness :
    ((githubSample { Repository := "org/repo" }).CheckAndSetDefaults refDeps).2 = none ∧
    ((githubSample {}).CheckAndSetDefaults refDeps).2 ≠ none :=
  ⟨(CheckAndSetDefaults_github_iff refDeps (githubSample { Repository := "org/repo" })
      (by decide) (by decide)).mpr ⟨_, rfl, by decide, by decide⟩,
   fun h => absurd ((CheckAndSetDefaults_github_iff refDeps (githubSample {})
      (by decide) (by decide)).mp h) (by decide)⟩

/-- C13: for a token with join method `circleci` which passes the method-independent
checks, `CheckAndSetDefaults` succeeds exactly when the circleci configuration is present,
its allow list has at least one rule, its `organization_id` is non-empty and every rule has
a non-empty `project_id` or a non-empty `context_id`. -/
theorem CheckAndSetDefaults_circleci_iff (d : Deps) (p : ProvisionTokenV2)
    (hm : p.Spec.JoinMethod = JoinMethodCircleCI)
    (hc : (checkCommon d p).2 = none) :
    (p.CheckAndSetDefaults d).2 = none ↔
      ∃ cfg, p.Spec.CircleCI = some cfg ∧ cfg.Allow ≠ [] ∧ cfg.OrganizationID ≠ "" ∧
        ∀ r ∈ cfg.Allow, r.ProjectID ≠ "" ∨ r.ContextID ≠ "" := by
  have hjm :
      (defaultJoinMethod (checkCommon d p).1.Spec).JoinMethod = JoinMethodCircleCI := by
    have : p.Spec.JoinMethod ≠ JoinMethodUnspecified := by rw [hm]; decide
    rw [defaultJoinMethod_common_of_specified d p this, hm]
  rw [CheckAndSetDefaults_of_common d p hc, checkJoinMethod_circleCI _ hjm, checkCommon_spec]
  constructor
  · rintro ⟨a, ha, hk⟩
    rw [circleCI_checkAndSetDefaults_ok_iff, circleCIRuleLoop_none_iff] at hk
    exact ⟨a, ha, hk⟩
  · rintro ⟨a, ha, hk⟩
    refine ⟨a, ha, ?_⟩
    rw [circleCI_checkAndSetDefaults_ok_iff, circleCIRuleLoop_none_iff]
    exact hk

/-- C13, worked cases: a `circleci` token with an organization and a project rule is
accepted; without the organization, or with a rule that sets neither field, it is
rejected. -/
theorem CheckAndSetDefaults_circleci_iff_witness :
    ((circleCISample "org-1" { ProjectID := "proj-1" }).CheckAndSetDefaults refDeps).2
      = none ∧
    ((circleCISample "" { ProjectID := "proj-1" }).CheckAndSetDefaults refDeps).2 ≠ none ∧
    ((circleCISample "org-1" {}).CheckAndSetDefaults refDeps).2 ≠ none :=
  ⟨(CheckAndSetDefaults_circleci_iff refDeps (circleCISample "org-1" { ProjectID := "proj-1" })
      (by decide) (by decide)).mpr ⟨_, rfl, by decide, by decide, by decide⟩,
   fun h => absurd ((CheckAndSetDefaults_circleci_iff refDeps
      (circleCISample "" { ProjectID := "proj-1" }) (by decide) (by decide)).mp h)
      (by decide),
   fun h => absurd ((CheckAndSetDefaults_circleci_iff refDeps (circleCISample "org-1" {})
      (by decide) (by decide)).mp h) (by decide)⟩

/-! ## Construction -/

theorem CheckAndSetDefaults_metadata (d : Deps) (p : ProvisionTokenV2) :
    (p.CheckAndSetDefaults d).1.Metadata = (d.metadataCheck p.Metadata).1 := by
  rw [CheckAndSetDefaults_state]

theorem CheckAndSetDefaults_github (d : Deps) (p : ProvisionTokenV2) :
    (p.CheckAndSetDefaults d).1.Spec.GitHub = p.Spec.GitHub := by
  rw [CheckAndSetDefaults_state]

theorem CheckAndSetDefaults_circleCI (d : Deps) (p : ProvisionTokenV2) :
    (p.CheckAndSetDefaults d).1.Spec.CircleCI = p.Spec.CircleCI := by
  rw [CheckAndSetDefaults_state]

theorem CheckAndSetDefaults_kubernetes (d : Deps) (p : ProvisionTokenV2) :
    (p.CheckAndSetDefaults d).1.Spec.Kubernetes = p.Spec.Kubernetes := by
  rw [CheckAndSetDefaults_state]

/-- A token the validator has accepted is accepted again, when the metadata check is
idempotent. -/
theorem CheckAndSetDefaults_accepts_again (d : Deps) (hd : d.MetadataIdempotent)
    (t : ProvisionTokenV2) (hok : (t.CheckAndSetDefaults d).2 = none) :
    ((t.CheckAndSetDefaults d).1.CheckAndSetDefaults d).2 = none := by
  obtain ⟨hc, hj⟩ := (CheckAndSetDefaults_ok_iff d t).mp hok
  obtain ⟨hmeta, hroles, hrc, hbot⟩ := (checkCommon_ok_iff d t).mp hc
  have hjm := CheckAndSetDefaults_joinMethod_of_ok d t hc
  have hjm0 : (t.CheckAndSetDefaults d).1.Spec.JoinMethod ≠ JoinMethodUnspecified := by
    rw [hjm]; exact defaultJoinMethod_ne_unspecified _
  have hmeta' := hd t.Metadata hmeta
  rw [CheckAndSetDefaults_ok_iff]
  constructor
  · rw [checkCommon_ok_iff, CheckAndSetDefaults_metadata, hmeta', CheckAndSetDefaults_roles,
      CheckAndSetDefaults_botName]
    exact ⟨rfl, hroles, hrc, hbot⟩
  · refine checkJoinMethod_ok_congr (checkCommon d t).1 _ ?_ ?_ ?_ ?_ ?_ hj
    · rw [checkCommon_spec, checkCommon_spec, defaultJoinMethod_of_specified _ hjm0, hjm]
    · rw [checkCommon_spec, checkCommon_spec, CheckAndSetDefaults_allow]
    · rw [checkCommon_spec, checkCommon_spec, CheckAndSetDefaults_github]
    · rw [checkCommon_spec, checkCommon_spec, CheckAndSetDefaults_circleCI]
    · rw [checkCommon_spec, checkCommon_spec, CheckAndSetDefaults_kubernetes]

/-- The result of `NewProvisionTokenFromSpec`, by the verdict of the validator on the token
of lines 119-125. -/
theorem NewProvisionTokenFromSpec_eq (d : Deps) (token : String) (expires : Time)
    (spec : ProvisionTokenSpecV2) :
    NewProvisionTokenFromSpec d token expires spec =
      match (ProvisionTokenV2.CheckAndSetDefaults d
        { Metadata := { Name := token, Expires := some expires }, Spec := spec }).2 with
      | some err => Except.error err
      | none => Except.ok (ProvisionTokenV2.CheckAndSetDefaults d
          { Metadata := { Name := token, Expires := some expires }, Spec := spec }).1 :=
  rfl

/-- C11: `NewProvisionTokenFromSpec` returns the validator's error, and no token, exactly
when `CheckAndSetDefaults` rejects the token built from the name, the expiry and the
specification; otherwise it returns that token as the validator leaves it, the validator
having accepted it.  The token returned has the roles of the specification; it has the
given name and expiry when the metadata check leaves these alone, and the validator
accepts it again when the metadata check is idempotent.  `NewProvisionToken` is
`NewProvisionTokenFromSpec` on the specification with only the roles. -/
theorem NewProvisionTokenFromSpec_result (d : Deps) (token : String) (expires : Time)
    (spec : ProvisionTokenSpecV2) (roles : List SystemRole) :
    (∀ err, NewProvisionTokenFromSpec d token expires spec = Except.error err ↔
      (ProvisionTokenV2.CheckAndSetDefaults d
        { Metadata := { Name := token, Expires := some expires }, Spec := spec }).2
        = some err) ∧
    (∀ t, NewProvisionTokenFromSpec d token expires spec = Except.ok t ↔
      ProvisionTokenV2.CheckAndSetDefaults d
        { Metadata := { Name := token, Expires := some expires }, Spec := spec }
        = (t, none)) ∧
    (∀ t, NewProvisionTokenFromSpec d token expires spec = Except.ok t →
      t.GetRoles = spec.Roles ∧
      (d.MetadataKeepsNameAndExpiry → t.GetName = token ∧ t.Expiry = expires) ∧
      (d.MetadataIdempotent → (t.CheckAndSetDefaults d).2 = none)) ∧
    NewProvisionToken d token roles expires =
      NewProvisionTokenFromSpec d token expires { Roles := roles } := by
  rw [NewProvisionTokenFromSpec_eq]
  generalize hb : ({ Metadata := { Name := token, Expires := some expires }, Spec := spec }
    : ProvisionTokenV2) = b
  have hbR : b.Spec.Roles = spec.Roles := by rw [← hb]
  have hbN : b.Metadata.Name = token := by rw [← hb]
  have hbE : b.Metadata.Expiry = expires := by rw [← hb]; rfl
  refine ⟨?_, ?_, ?_, rfl⟩
  · intro err
    cases h : (b.CheckAndSetDefaults d).2 with
    | none => simp
    | some e => simp
  · intro t
    cases h : (b.CheckAndSetDefaults d).2 with
    | none =>
      simp only [Except.ok.injEq]
      constructor
      · intro ht; exact Prod.ext ht h
      · intro ht; rw [ht]
    | some e =>
      constructor
      · intro ht; exact absurd ht (by simp)
      · intro ht
        rw [ht] at h
        exact absurd h (by simp)
  · intro t
    cases h : (b.CheckAndSetDefaults d).2 with
    | some e => simp
    | none =>
      simp only [Except.ok.injEq]
      intro ht
      subst ht
      refine ⟨?_, ?_, ?_⟩
      · unfold ProvisionTokenV2.GetRoles
        rw [CheckAndSetDefaults_roles, hbR]
      · intro hk
        unfold ProvisionTokenV2.GetName ProvisionTokenV2.Expiry
        rw [CheckAndSetDefaults_metadata, (hk b.Metadata).1, (hk b.Metadata).2, hbN, hbE]
        exact ⟨rfl, rfl⟩
      · intro hi
        exact CheckAndSetDefaults_accepts_again d hi b h

/-- C11, worked cases: from the name `tok`, an expiry and the sample specification the
constructor returns a token with that name, that expiry and the role of the specification;
from an empty role list `NewProvisionToken` returns the validator's error. -/
theorem NewProvisionTokenFromSpec_result_witness :
    (∃ t, NewProvisionTokenFromSpec refDeps "tok" { nanos := 17 } sampleSpec = Except.ok t ∧
      t.GetRoles = ["Node"] ∧ t.GetName = "tok" ∧ t.Expiry = { nanos := 17 } ∧
      (t.CheckAndSetDefaults refDeps).2 = none) ∧
    NewProvisionToken refDeps "tok" [] { nanos := 17 } =
      Except.error (BadParameter "provisioning token is missing roles" []) := by
  have h := NewProvisionTokenFromSpec_result refDeps "tok" { nanos := 17 } sampleSpec []
  have h0 := NewProvisionTokenFromSpec_result refDeps "tok" { nanos := 17 } {} []
  have hok := (h.2.1 (ProvisionTokenV2.CheckAndSetDefaults refDeps
    { Metadata := { Name := "tok", Expires := some { nanos := 17 } }, Spec := sampleSpec }).1).mpr
    (by decide)
  have hprops := h.2.2.1 _ hok
  have hname := hprops.2.1 refDeps_metadataKeepsNameAndExpiry
  exact ⟨⟨_, hok, hprops.1, hname.1, hname.2, hprops.2.2 refDeps_metadataIdempotent⟩,
    h0.2.2.2.trans ((h0.1 _).mpr (by decide))⟩

/-! ## The roles -/

/-- C14: `CheckAndSetDefaults` returns an error when the role list is empty; so every token
it accepts, and every token that `NewProvisionTokenFromSpec` returns, has a non-empty role
list. -/
theorem CheckAndSetDefaults_roles_nonempty (d : Deps) (p : ProvisionTokenV2)
    (token : String) (expires : Time) (spec : ProvisionTokenSpecV2) :
    (p.Spec.Roles = [] → (p.CheckAndSetDefaults d).2 ≠ none) ∧
    ((p.CheckAndSetDefaults d).2 = none → (p.CheckAndSetDefaults d).1.Spec.Roles ≠ []) ∧
    (∀ t, NewProvisionTokenFromSpec d token expires spec = Except.ok t → t.GetRoles ≠ []) := by
  have key : ∀ q : ProvisionTokenV2, (q.CheckAndSetDefaults d).2 = none → q.Spec.Roles ≠ [] :=
    fun q h => ((checkCommon_ok_iff d q).mp ((CheckAndSetDefaults_ok_iff d q).mp h).1).2.1
  refine ⟨fun hr hok => key p hok hr, ?_, ?_⟩
  · intro hok
    rw [CheckAndSetDefaults_roles]
    exact key p hok
  · intro t
    rw [NewProvisionTokenFromSpec_eq]
    generalize ({ Metadata := { Name := token, Expires := some expires }, Spec := spec }
      : ProvisionTokenV2) = b
    cases h : (b.CheckAndSetDefaults d).2 with
    | some e => simp
    | none =>
      simp only [Except.ok.injEq]
      intro ht
      subst ht
      unfold ProvisionTokenV2.GetRoles
      rw [CheckAndSetDefaults_roles]
      exact key b h

/-- C14, worked cases: a token without roles is rejected with the missing-roles error, and
the accepted `ec2` sample keeps its one role. -/
theorem CheckAndSetDefaults_roles_nonempty_witness :
    ((sampleToken {}).CheckAndSetDefaults refDeps).2 ≠ none ∧
    (ec2Sample.CheckAndSetDefaults refDeps).1.Spec.Roles ≠ [] :=
  ⟨(CheckAndSetDefaults_roles_nonempty refDeps (sampleToken {}) "tok" Time.zero {}).1
      (by decide),
   (CheckAndSetDefaults_roles_nonempty refDeps ec2Sample "tok" Time.zero {}).2.1
      (by decide)⟩

/-! ## The registry of join methods -/

/-- C15: `ValidateJoinMethod` returns no error exactly for the six methods `token`, `ec2`,
`iam`, `github`, `circleci` and `kubernetes`, so not for the unspecified method; the error
it returns carries the six methods, joined by `JoinStrings` into its one argument. -/
theorem ValidateJoinMethod_iff (m : JoinMethod) :
    (ValidateJoinMethod m = none ↔
      m ∈ [JoinMethodToken, JoinMethodEC2, JoinMethodIAM, JoinMethodGitHub,
        JoinMethodCircleCI, JoinMethodKubernetes]) ∧
    ValidateJoinMethod JoinMethodUnspecified ≠ none ∧
    (ValidateJoinMethod m ≠ none →
      ValidateJoinMethod m = some (BadParameter "join method must be one of %s"
        [JoinStrings [JoinMethodToken, JoinMethodEC2, JoinMethodIAM, JoinMethodGitHub,
          JoinMethodCircleCI, JoinMethodKubernetes] ", "])) ∧
    JoinStrings [JoinMethodToken, JoinMethodEC2, JoinMethodIAM, JoinMethodGitHub,
        JoinMethodCircleCI, JoinMethodKubernetes] ", "
      = "token, ec2, iam, github, circleci, kubernetes" := by
  have hmem : JoinMethods.contains m = true ↔ m ∈ JoinMethods := by simp
  refine ⟨?_, by decide, ?_, by decide⟩
  · unfold ValidateJoinMethod
    by_cases h : m ∈ JoinMethods
    · have hc := hmem.mpr h
      simp only [hc, Bool.not_true, Bool.false_eq_true, if_false, true_iff]
      exact h
    · have hc : JoinMethods.contains m = false := by
        cases hb : JoinMethods.contains m with
        | false => rfl
        | true => exact absurd (hmem.mp hb) h
      simp only [hc, Bool.not_false, if_true]
      exact ⟨fun hh => absurd hh (by simp), fun hh => absurd hh h⟩
  · unfold ValidateJoinMethod
    intro hne
    cases hb : JoinMethods.contains m with
    | true =>
      simp only [hb, Bool.not_true, Bool.false_eq_true, if_false] at hne
      exact absurd rfl hne
    | false => simp [JoinMethods]

/-- C15, worked cases: `kubernetes` is registered; `k8s` is not and gets the error that
lists the six methods. -/
theorem ValidateJoinMethod_iff_witness :
    ValidateJoinMethod "kubernetes" = none ∧
    ValidateJoinMethod "k8s" = some (BadParameter "join method must be one of %s"
      ["token, ec2, iam, github, circleci, kubernetes"]) :=
  ⟨(ValidateJoinMethod_iff "kubernetes").1.mpr (by decide),
   ((ValidateJoinMethod_iff "k8s").2.2.1 (by decide)).trans (by decide)⟩

/-! ## The TTL of the instance identity document -/

theorem defaultJoinMethod_eq_ec2_iff (spec : ProvisionTokenSpecV2) :
    (defaultJoinMethod spec).JoinMethod = JoinMethodEC2 ↔
      spec.JoinMethod = JoinMethodEC2 ∨
        (spec.JoinMethod = JoinMethodUnspecified ∧ spec.Allow ≠ []) := by
  rw [defaultJoinMethod_joinMethod]
  by_cases h : spec.JoinMethod = JoinMethodUnspecified
  · have h1 : ¬ (JoinMethodUnspecified = JoinMethodEC2) := by decide
    have h2 : ¬ (JoinMethodToken = JoinMethodEC2) := by decide
    by_cases ha : spec.Allow = []
    · simp [h, ha, h1, h2]
    · simp [h, ha, h1]
  · simp [h]

/-- The TTL that the validator leaves in a token which passes the method-independent
checks. -/
theorem CheckAndSetDefaults_ttl_of_common (d : Deps) (p : ProvisionTokenV2)
    (hc : (checkCommon d p).2 = none) :
    (p.CheckAndSetDefaults d).1.Spec.AWSIIDTTL =
      if (defaultJoinMethod p.Spec).JoinMethod = JoinMethodEC2 ∧
          (p.CheckAndSetDefaults d).2 = none ∧ p.Spec.AWSIIDTTL = 0 then 5 * timeMinute
      else p.Spec.AWSIIDTTL := by
  rw [CheckAndSetDefaults_of_common d p hc]
  conv_lhs => rw [checkJoinMethod_state]
  rw [checkCommon_spec]

/-- C16: in a token that `CheckAndSetDefaults` accepts with join method `ec2`, given or
obtained by default, the resulting TTL is five minutes when the input TTL was zero and the
input TTL otherwise; in an accepted token of any other join method the TTL is as given. -/
theorem CheckAndSetDefaults_ttl (d : Deps) (p : ProvisionTokenV2)
    (hok : (p.CheckAndSetDefaults d).2 = none) :
    ((p.Spec.JoinMethod = JoinMethodEC2 ∨
        (p.Spec.JoinMethod = JoinMethodUnspecified ∧ p.Spec.Allow ≠ [])) →
      (p.CheckAndSetDefaults d).1.Spec.JoinMethod = JoinMethodEC2 ∧
      (p.CheckAndSetDefaults d).1.Spec.AWSIIDTTL =
        if p.Spec.AWSIIDTTL = 0 then 5 * 60 * 1000000000 else p.Spec.AWSIIDTTL) ∧
    (¬ (p.Spec.JoinMethod = JoinMethodEC2 ∨
        (p.Spec.JoinMethod = JoinMethodUnspecified ∧ p.Spec.Allow ≠ [])) →
      (p.CheckAndSetDefaults d).1.Spec.JoinMethod ≠ JoinMethodEC2 ∧
      (p.CheckAndSetDefaults d).1.Spec.AWSIIDTTL = p.Spec.AWSIIDTTL) := by
  have hc := ((CheckAndSetDefaults_ok_iff d p).mp hok).1
  have httl := CheckAndSetDefaults_ttl_of_common d p hc
  have hjm := CheckAndSetDefaults_joinMethod_of_ok d p hc
  have hfive : (5 * timeMinute : Duration) = 5 * 60 * 1000000000 := by decide
  constructor
  · intro he
    have he' := (defaultJoinMethod_eq_ec2_iff p.Spec).mpr he
    refine ⟨hjm.trans he', ?_⟩
    rw [httl]
    by_cases h0 : p.Spec.AWSIIDTTL = 0
    · simp only [he', hok, h0, and_self, if_true, hfive]
    · simp only [h0, and_false, if_false]
  · intro hne
    have hne' : ¬ (defaultJoinMethod p.Spec).JoinMethod = JoinMethodEC2 :=
      fun h => hne ((defaultJoinMethod_eq_ec2_iff p.Spec).mp h)
    refine ⟨by rw [hjm]; exact hne', ?_⟩
    rw [httl]
    simp only [hne', false_and, if_false]

/-- C16, worked cases: the accepted `ec2` sample, given without TTL, ends with five minutes;
an `ec2` token given with a TTL of one minute keeps it; an accepted `iam` token keeps its
zero TTL. -/
theorem CheckAndSetDefaults_ttl_witness :
    (ec2Sample.CheckAndSetDefaults refDeps).1.Spec.AWSIIDTTL = 300000000000 ∧
    ((sampleToken { sampleSpec with AWSIIDTTL := 60000000000 }).CheckAndSetDefaults
        refDeps).1.Spec.AWSIIDTTL = 60000000000 ∧
    ((ruleSample "iam" { AWSAccount := "1234" }).CheckAndSetDefaults refDeps).1.Spec.AWSIIDTTL
      = 0 :=
  ⟨((CheckAndSetDefaults_ttl refDeps ec2Sample (by decide)).1
      (Or.inr ⟨by decide, by decide⟩)).2,
   ((CheckAndSetDefaults_ttl refDeps (sampleToken { sampleSpec with AWSIIDTTL := 60000000000 })
      (by decide)).1 (Or.inr ⟨by decide, by decide⟩)).2,
   ((CheckAndSetDefaults_ttl refDeps (ruleSample "iam" { AWSAccount := "1234" })
      (by decide)).2 (by decide)).2⟩

/-! ## The join method named by the errors of the switch -/

theorem ec2RuleLoop_err (rules : List TokenRule) (e : Err)
    (h : ec2RuleLoop rules = some e) : e.args = [JoinMethodEC2] := by
  induction rules with
  | nil => simp [ec2RuleLoop] at h
  | cons r rest ih =>
    unfold ec2RuleLoop at h
    split at h
    · simp only [Option.some.injEq] at h; rw [← h]; rfl
    · split at h
      · simp only [Option.some.injEq] at h; rw [← h]; rfl
      · exact ih h

/-- The errors of the `iam` loop name `iam`, but for the error of line 214, which names
`ec2`. -/
theorem iamRuleLoop_err (rules : List TokenRule) (e : Err)
    (h : iamRuleLoop rules = some e) :
    e.args = [JoinMethodIAM] ∨
      e = BadParameter
        "allow rule for %q join method must set \"aws_account\" or \"aws_arn\""
        [JoinMethodEC2] := by
  induction rules with
  | nil => simp [iamRuleLoop] at h
  | cons r rest ih =>
    unfold iamRuleLoop at h
    split at h
    · simp only [Option.some.injEq] at h; rw [← h]; exact Or.inl rfl
    · split at h
      · simp only [Option.some.injEq] at h; rw [← h]; exact Or.inl rfl
      · split at h
        · simp only [Option.some.injEq] at h; rw [← h]; exact Or.inr rfl
        · exact ih h

theorem githubRuleLoop_err (rules : List GitHubRule) (e : Err)
    (h : githubRuleLoop rules = some e) : e.args = [JoinMethodGitHub] := by
  induction rules with
  | nil => simp [githubRuleLoop] at h
  | cons r rest ih =>
    unfold githubRuleLoop at h
    simp only [] at h
    split at h
    · simp only [Option.some.injEq] at h; rw [← h]; rfl
    · exact ih h

theorem circleCIRuleLoop_err (rules : List CircleCIRule) (e : Err)
    (h : circleCIRuleLoop rules = some e) : e.args = [JoinMethodCircleCI] := by
  induction rules with
  | nil => simp [circleCIRuleLoop] at h
  | cons r rest ih =>
    unfold circleCIRuleLoop at h
    simp only [] at h
    split at h
    · simp only [Option.some.injEq] at h; rw [← h]; rfl
    · exact ih h

theorem kubernetesRuleLoop_err (rules : List KubernetesRule) (e : Err)
    (h : kubernetesRuleLoop rules = some e) : e.args.head? = some JoinMethodKubernetes := by
  induction rules with
  | nil => simp [kubernetesRuleLoop] at h
  | cons r rest ih =>
    unfold kubernetesRuleLoop at h
    split at h
    · simp only [Option.some.injEq] at h; rw [← h]; rfl
    · split at h
      · simp only [Option.some.injEq] at h; rw [← h]; rfl
      · exact ih h

theorem github_checkAndSetDefaults_err (a : ProvisionTokenSpecV2GitHub) (e : Err)
    (h : a.checkAndSetDefaults.2 = some e) : e.args = [JoinMethodGitHub] := by
  unfold ProvisionTokenSpecV2GitHub.checkAndSetDefaults at h
  split at h
  · simp only [Option.some.injEq] at h; rw [← h]; rfl
  · exact githubRuleLoop_err _ e h

theorem circleCI_checkAndSetDefaults_err (a : ProvisionTokenSpecV2CircleCI) (e : Err)
    (h : a.checkAndSetDefaults.2 = some e) : e.args = [JoinMethodCircleCI] := by
  unfold ProvisionTokenSpecV2CircleCI.checkAndSetDefaults at h
  split at h
  · simp only [Option.some.injEq] at h; rw [← h]; rfl
  · split at h
    · simp only [Option.some.injEq] at h; rw [← h]; rfl
    · exact circleCIRuleLoop_err _ e h

theorem kubernetes_checkAndSetDefaults_err (a : ProvisionTokenSpecV2Kubernetes) (e : Err)
    (h : a.checkAndSetDefaults.2 = some e) : e.args.head? = some JoinMethodKubernetes := by
  unfold ProvisionTokenSpecV2Kubernetes.checkAndSetDefaults at h
  split at h
  · simp only [Option.some.injEq] at h; rw [← h]; rfl
  · exact kubernetesRuleLoop_err _ e h

/-- Every error of the switch has the defaulted join method as its first argument, but for
the error of line 214 in the `iam` case, whose argument is `ec2`. -/
theorem checkJoinMethod_err (p : ProvisionTokenV2) (e : Err)
    (h : (checkJoinMethod p).2 = some e) :
    e.args.head? = some (defaultJoinMethod p.Spec).JoinMethod ∨
      ((defaultJoinMethod p.Spec).JoinMethod = JoinMethodIAM ∧
        e = BadParameter
          "allow rule for %q join method must set \"aws_account\" or \"aws_arn\""
          [JoinMethodEC2]) := by
  generalize hm : (defaultJoinMethod p.Spec).JoinMethod = m
  unfold checkJoinMethod at h
  simp only [hm] at h
  by_cases h1 : m = JoinMethodToken
  · simp only [h1, if_true] at h
    split at h
    · simp only [Option.some.injEq] at h; rw [← h, h1]; exact Or.inl rfl
    · exact absurd h (by simp)
  · simp only [h1, if_false] at h
    by_cases h2 : m = JoinMethodEC2
    · simp only [h2, if_true] at h
      left
      rw [h2]
      split at h
      · simp only [Option.some.injEq] at h; rw [← h]; rfl
      · split at h
        · rename_i err hl
          simp only [Option.some.injEq] at h
          rw [← h, ec2RuleLoop_err _ err hl]; rfl
        · split at h <;> exact absurd h (by simp)
    · simp only [h2, if_false] at h
      by_cases h3 : m = JoinMethodIAM
      · simp only [h3, if_true] at h
        rw [h3]
        split at h
        · simp only [Option.some.injEq] at h; rw [← h]; exact Or.inl rfl
        · split at h
          · rename_i err hl
            simp only [Option.some.injEq] at h
            rw [← h]
            rcases iamRuleLoop_err _ err hl with ha | ha
            · left; rw [ha]; rfl
            · right; exact ⟨rfl, ha⟩
          · exact absurd h (by simp)
      · simp only [h3, if_false] at h
        by_cases h4 : m = JoinMethodGitHub
        · simp only [h4, if_true] at h
          left
          rw [h4]
          split at h
          · simp only [Option.some.injEq] at h; rw [← h]; rfl
          · rw [github_checkAndSetDefaults_err _ e h]; rfl
        · simp only [h4, if_false] at h
          by_cases h5 : m = JoinMethodCircleCI
          · simp only [h5, if_true] at h
            left
            rw [h5]
            split at h
            · simp only [Option.some.injEq] at h; rw [← h]; rfl
            · rw [circleCI_checkAndSetDefaults_err _ e h]; rfl
          · simp only [h5, if_false] at h
            by_cases h6 : m = JoinMethodKubernetes
            · simp only [h6, if_true] at h
              left
              rw [h6]
              split at h
              · simp only [Option.some.injEq] at h; rw [← h]; rfl
              · exact kubernetes_checkAndSetDefaults_err _ e h
            · simp only [h6, if_false, Option.some.injEq] at h
              left
              rw [← h]; rfl

/-- The error of a token which passes the method-independent checks and is rejected: its
first argument is the join method of the token as defaulted, but for the error of line 214
in the `iam` case, whose argument is `ec2`. -/
theorem CheckAndSetDefaults_err_of_common (d : Deps) (p : ProvisionTokenV2) (e : Err)
    (hc : (checkCommon d p).2 = none) (he : (p.CheckAndSetDefaults d).2 = some e) :
    e.args.head? = some (p.CheckAndSetDefaults d).1.Spec.JoinMethod ∨
      ((p.CheckAndSetDefaults d).1.Spec.JoinMethod = JoinMethodIAM ∧
        e = BadParameter
          "allow rule for %q join method must set \"aws_account\" or \"aws_arn\""
          [JoinMethodEC2]) := by
  rw [CheckAndSetDefaults_joinMethod_of_ok d p hc]
  rw [CheckAndSetDefaults_of_common d p hc] at he
  have := checkJoinMethod_err _ e he
  rw [checkCommon_spec] at this
  exact this

/-- C17, at the failing input: the `iam` token whose one allow rule sets no field passes the
method-independent checks and keeps the join method `iam`; the validator rejects it with the
error of line 214, whose argument, the join method that the message names, is `ec2`. -/
theorem CheckAndSetDefaults_iam_error_names_ec2 :
    (checkCommon refDeps iamEmptyRuleSample).2 = none ∧
    (iamEmptyRuleSample.CheckAndSetDefaults refDeps).1.Spec.JoinMethod = JoinMethodIAM ∧
    (iamEmptyRuleSample.CheckAndSetDefaults refDeps).2 =
      some (BadParameter
        "allow rule for %q join method must set \"aws_account\" or \"aws_arn\""
        [JoinMethodEC2]) ∧
    JoinMethodEC2 ≠ JoinMethodIAM := by
  decide

/-! ## The configuration of the other methods -/

/-- One direction of the independence from the configuration of the other methods. -/
theorem CheckAndSetDefaults_ok_of_same_config (d : Deps) (p q : ProvisionTokenV2)
    (hm : p.Spec.JoinMethod = q.Spec.JoinMethod)
    (hs : p.Spec.JoinMethod ≠ JoinMethodUnspecified)
    (hM : p.Metadata = q.Metadata) (hR : p.Spec.Roles = q.Spec.Roles)
    (hB : p.Spec.BotName = q.Spec.BotName)
    (hA : p.Spec.JoinMethod ∈ [JoinMethodToken, JoinMethodEC2, JoinMethodIAM] →
      p.Spec.Allow = q.Spec.Allow)
    (hG : p.Spec.JoinMethod = JoinMethodGitHub → p.Spec.GitHub = q.Spec.GitHub)
    (hC : p.Spec.JoinMethod = JoinMethodCircleCI → p.Spec.CircleCI = q.Spec.CircleCI)
    (hK : p.Spec.JoinMethod = JoinMethodKubernetes → p.Spec.Kubernetes = q.Spec.Kubernetes)
    (hok : (p.CheckAndSetDefaults d).2 = none) : (q.CheckAndSetDefaults d).2 = none := by
  obtain ⟨hc, hj⟩ := (CheckAndSetDefaults_ok_iff d p).mp hok
  have hcq : (checkCommon d q).2 = none := by
    rw [checkCommon_ok_iff] at hc ⊢
    rw [← hM, ← hR, ← hB]
    exact hc
  have hjp := defaultJoinMethod_common_of_specified d p hs
  have hjq := defaultJoinMethod_common_of_specified d q (hm ▸ hs)
  rw [CheckAndSetDefaults_ok_iff]
  refine ⟨hcq, ?_⟩
  by_cases hin : p.Spec.JoinMethod ∈ JoinMethods
  · simp only [JoinMethods, List.mem_cons, List.mem_singleton, List.mem_nil_iff,
      or_false] at hin
    rcases hin with h | h | h | h | h | h
    · have hA' := hA (by rw [h]; decide)
      rw [checkJoinMethod_token _ (hjp.trans h), checkCommon_spec] at hj
      rw [checkJoinMethod_token _ (hjq.trans (hm ▸ h)), checkCommon_spec, ← hA']
      exact hj
    · have hA' := hA (by rw [h]; decide)
      rw [checkJoinMethod_ec2 _ (hjp.trans h), checkCommon_spec] at hj
      rw [checkJoinMethod_ec2 _ (hjq.trans (hm ▸ h)), checkCommon_spec, ← hA']
      exact hj
    · have hA' := hA (by rw [h]; decide)
      rw [checkJoinMethod_iam _ (hjp.trans h), checkCommon_spec] at hj
      rw [checkJoinMethod_iam _ (hjq.trans (hm ▸ h)), checkCommon_spec, ← hA']
      exact hj
    · rw [checkJoinMethod_github _ (hjp.trans h), checkCommon_spec] at hj
      rw [checkJoinMethod_github _ (hjq.trans (hm ▸ h)), checkCommon_spec, ← hG h]
      exact hj
    · rw [checkJoinMethod_circleCI _ (hjp.trans h), checkCommon_spec] at hj
      rw [checkJoinMethod_circleCI _ (hjq.trans (hm ▸ h)), checkCommon_spec, ← hC h]
      exact hj
    · rw [checkJoinMethod_kubernetes _ (hjp.trans h), checkCommon_spec] at hj
      rw [checkJoinMethod_kubernetes _ (hjq.trans (hm ▸ h)), checkCommon_spec, ← hK h]
      exact hj
  · rw [checkJoinMethod_unknown _ (by rw [hjp]; exact hin)] at hj
    exact absurd hj (by simp)

/-- C18: the configuration of the other methods is ignored.  Two tokens with the same
join method, given explicitly, the same metadata, roles and bot name and the same
configuration for that method (the allow rules for `token`, `ec2` and `iam`; the github,
circleci or kubernetes configuration for the method of that name) are both accepted or
both rejected by `CheckAndSetDefaults`. -/
theorem CheckAndSetDefaults_ignores_other_methods (d : Deps) (p q : ProvisionTokenV2)
    (hm : p.Spec.JoinMethod = q.Spec.JoinMethod)
    (hs : p.Spec.JoinMethod ≠ JoinMethodUnspecified)
    (hM : p.Metadata = q.Metadata) (hR : p.Spec.Roles = q.Spec.Roles)
    (hB : p.Spec.BotName = q.Spec.BotName)
    (hA : p.Spec.JoinMethod ∈ [JoinMethodToken, JoinMethodEC2, JoinMethodIAM] →
      p.Spec.Allow = q.Spec.Allow)
    (hG : p.Spec.JoinMethod = JoinMethodGitHub → p.Spec.GitHub = q.Spec.GitHub)
    (hC : p.Spec.JoinMethod = JoinMethodCircleCI → p.Spec.CircleCI = q.Spec.CircleCI)
    (hK : p.Spec.JoinMethod = JoinMethodKubernetes → p.Spec.Kubernetes = q.Spec.Kubernetes) :
    (p.CheckAndSetDefaults d).2 = none ↔ (q.CheckAndSetDefaults d).2 = none := by
  constructor
  · exact CheckAndSetDefaults_ok_of_same_config d p q hm hs hM hR hB hA hG hC hK
  · refine CheckAndSetDefaults_ok_of_same_config d q p hm.symm (hm ▸ hs) hM.symm hR.symm
      hB.symm ?_ ?_ ?_ ?_
    · intro h; rw [← hm] at h; exact (hA h).symm
    · intro h; rw [← hm] at h; exact (hG h).symm
    · intro h; rw [← hm] at h; exact (hC h).symm
    · intro h; rw [← hm] at h; exact (hK h).symm

/-- C18, worked case: the `iam` token with one account rule is accepted, and so is the same
token with an empty github and an empty kubernetes configuration added, though each of
these would be rejected under its own method. -/
theorem CheckAndSetDefaults_ignores_other_methods_witness :
    ((ruleSample "iam" { AWSAccount := "1234" }).CheckAndSetDefaults refDeps).2 = none ∧
    (otherConfigSample.CheckAndSetDefaults refDeps).2 = none :=
  ⟨by decide,
   (CheckAndSetDefaults_ignores_other_methods refDeps
      (ruleSample "iam" { AWSAccount := "1234" }) otherConfigSample
      (by decide) (by decide) (by decide) (by decide) (by decide)
      (fun _ => by decide) (fun h => absurd h (by decide)) (fun h => absurd h (by decide))
      (fun h => absurd h (by decide))).mp (by decide)⟩

/-! ## What validation writes -/

/-- The join method that the validator leaves: the default when the method-independent
checks pass, the input otherwise. -/
theorem CheckAndSetDefaults_joinMethod (d : Deps) (p : ProvisionTokenV2) :
    (p.CheckAndSetDefaults d).1.Spec.JoinMethod =
      if (checkCommon d p).2 = none then (defaultJoinMethod p.Spec).JoinMethod
      else p.Spec.JoinMethod := by
  cases h : (checkCommon d p).2 with
  | none => simp only [if_true]; exact CheckAndSetDefaults_joinMethod_of_ok d p h
  | some e =>
    rw [CheckAndSetDefaults_of_common_err d p e h]
    simp only [checkCommon_spec, if_false, reduceCtorEq]

/-- The TTL that the validator leaves. -/
theorem CheckAndSetDefaults_ttl_eq (d : Deps) (p : ProvisionTokenV2) :
    (p.CheckAndSetDefaults d).1.Spec.AWSIIDTTL =
      if (defaultJoinMethod p.Spec).JoinMethod = JoinMethodEC2 ∧
          (p.CheckAndSetDefaults d).2 = none ∧ p.Spec.AWSIIDTTL = 0 then 5 * timeMinute
      else p.Spec.AWSIIDTTL := by
  cases h : (checkCommon d p).2 with
  | none => exact CheckAndSetDefaults_ttl_of_common d p h
  | some e =>
    rw [CheckAndSetDefaults_of_common_err d p e h]
    simp only [checkCommon_spec, reduceCtorEq, false_and, and_false, if_false]

/-- C19: validation writes only defaults.  Whether `CheckAndSetDefaults` succeeds or fails,
the roles, the bot name, the allow rules, the github, circleci and kubernetes
configurations and the suggested labels are as in the input, and so is the name, the
metadata check leaving the name alone; the join method differs from the input only when
that was unspecified, and the TTL only when that was zero and the join method is `ec2`;
the github, circleci and kubernetes validators leave their configuration as it is. -/
theorem CheckAndSetDefaults_frame (d : Deps) (p : ProvisionTokenV2)
    (hname : (d.metadataCheck p.Metadata).1.Name = p.Metadata.Name) :
    (p.CheckAndSetDefaults d).1.Spec.Roles = p.Spec.Roles ∧
    (p.CheckAndSetDefaults d).1.Spec.BotName = p.Spec.BotName ∧
    (p.CheckAndSetDefaults d).1.Spec.Allow = p.Spec.Allow ∧
    (p.CheckAndSetDefaults d).1.Spec.GitHub = p.Spec.GitHub ∧
    (p.CheckAndSetDefaults d).1.Spec.CircleCI = p.Spec.CircleCI ∧
    (p.CheckAndSetDefaults d).1.Spec.Kubernetes = p.Spec.Kubernetes ∧
    (p.CheckAndSetDefaults d).1.Spec.SuggestedLabels = p.Spec.SuggestedLabels ∧
    (p.CheckAndSetDefaults d).1.Spec.SuggestedAgentMatcherLabels
      = p.Spec.SuggestedAgentMatcherLabels ∧
    (p.CheckAndSetDefaults d).1.GetName = p.GetName ∧
    ((p.CheckAndSetDefaults d).1.Spec.JoinMethod ≠ p.Spec.JoinMethod →
      p.Spec.JoinMethod = JoinMethodUnspecified) ∧
    ((p.CheckAndSetDefaults d).1.Spec.AWSIIDTTL ≠ p.Spec.AWSIIDTTL →
      p.Spec.AWSIIDTTL = 0 ∧ (p.CheckAndSetDefaults d).1.Spec.JoinMethod = JoinMethodEC2 ∧
        (p.CheckAndSetDefaults d).1.Spec.AWSIIDTTL = 5 * timeMinute) ∧
    (∀ a : ProvisionTokenSpecV2GitHub, a.checkAndSetDefaults.1 = a) ∧
    (∀ a : ProvisionTokenSpecV2CircleCI, a.checkAndSetDefaults.1 = a) ∧
    (∀ a : ProvisionTokenSpecV2Kubernetes, a.checkAndSetDefaults.1 = a) := by
  refine ⟨CheckAndSetDefaults_roles d p, CheckAndSetDefaults_botName d p,
    CheckAndSetDefaults_allow d p, CheckAndSetDefaults_github d p,
    CheckAndSetDefaults_circleCI d p, CheckAndSetDefaults_kubernetes d p,
    by rw [CheckAndSetDefaults_state], by rw [CheckAndSetDefaults_state], ?_, ?_, ?_,
    github_checkAndSetDefaults_state, circleCI_checkAndSetDefaults_state,
    kubernetes_checkAndSetDefaults_state⟩
  · unfold ProvisionTokenV2.GetName
    rw [CheckAndSetDefaults_metadata, hname]
  · intro hne
    by_contra hs
    apply hne
    rw [CheckAndSetDefaults_joinMethod, defaultJoinMethod_of_specified _ hs]
    split <;> rfl
  · intro hne
    rw [CheckAndSetDefaults_ttl_eq] at hne ⊢
    by_cases hcond : (defaultJoinMethod p.Spec).JoinMethod = JoinMethodEC2 ∧
        (p.CheckAndSetDefaults d).2 = none ∧ p.Spec.AWSIIDTTL = 0
    · obtain ⟨he, hok, h0⟩ := hcond
      have hc := ((CheckAndSetDefaults_ok_iff d p).mp hok).1
      refine ⟨h0, ?_, ?_⟩
      · rw [CheckAndSetDefaults_joinMethod_of_ok d p hc]; exact he
      · simp only [he, hok, h0, and_self, if_true]
    · simp only [hcond, if_false, ne_eq, not_true_eq_false] at hne

/-- C19, worked cases: in the accepted `ec2` sample only the static fields, the join method
and the TTL differ from the input; in the rejected `iam` sample nothing but the static
fields does. -/
theorem CheckAndSetDefaults_frame_witness :
    (ec2Sample.CheckAndSetDefaults refDeps).1 =
      { ec2Sample with
        Kind := "token", Version := "v2"
        Spec := { ec2Sample.Spec with JoinMethod := "ec2", AWSIIDTTL := 300000000000 } } ∧
    (iamEmptyRuleSample.CheckAndSetDefaults refDeps).1 =
      { iamEmptyRuleSample with Kind := "token", Version := "v2" } ∧
    (ec2Sample.CheckAndSetDefaults refDeps).1.GetName = ec2Sample.GetName ∧
    (iamEmptyRuleSample.CheckAndSetDefaults refDeps).1.Spec.Allow
      = iamEmptyRuleSample.Spec.Allow :=
  ⟨by decide, by decide,
   (CheckAndSetDefaults_frame refDeps ec2Sample (by decide)).2.2.2.2.2.2.2.2.1,
   (CheckAndSetDefaults_frame refDeps iamEmptyRuleSample (by decide)).2.2.1⟩

/-! ## The registry and the switch -/

theorem ValidateJoinMethod_none_iff (m : JoinMethod) :
    ValidateJoinMethod m = none ↔ m ∈ JoinMethods := by
  unfold ValidateJoinMethod
  by_cases h : m ∈ JoinMethods
  · have hc : JoinMethods.contains m = true := by simpa using h
    simp only [hc, Bool.not_true, Bool.false_eq_true, if_false, true_iff]
    exact h
  · have hc : JoinMethods.contains m = false := by simpa using h
    simp only [hc, Bool.not_false, if_true]
    exact ⟨fun hh => absurd hh (by simp), fun hh => absurd hh h⟩

/-- C20: the registry and the switch agree.  The join method of a token that
`CheckAndSetDefaults` accepts passes `ValidateJoinMethod`, so it is neither unspecified nor
unregistered; and a token which passes the method-independent checks with a join method
that is given and that `ValidateJoinMethod` rejects is rejected with the unknown-join-method
error. -/
theorem CheckAndSetDefaults_agrees_with_registry (d : Deps) (p : ProvisionTokenV2) :
    ((p.CheckAndSetDefaults d).2 = none →
      ValidateJoinMethod (p.CheckAndSetDefaults d).1.Spec.JoinMethod = none ∧
      (p.CheckAndSetDefaults d).1.Spec.JoinMethod ≠ JoinMethodUnspecified) ∧
    ((checkCommon d p).2 = none → p.Spec.JoinMethod ≠ JoinMethodUnspecified →
      ValidateJoinMethod p.Spec.JoinMethod ≠ none →
      (p.CheckAndSetDefaults d).2 =
        some (BadParameter "unknown join method %q" [p.Spec.JoinMethod])) := by
  constructor
  · intro hok
    obtain ⟨hc, hj⟩ := (CheckAndSetDefaults_ok_iff d p).mp hok
    rw [CheckAndSetDefaults_joinMethod_of_ok d p hc]
    refine ⟨?_, defaultJoinMethod_ne_unspecified _⟩
    rw [ValidateJoinMethod_none_iff]
    by_contra hin
    rw [checkJoinMethod_unknown _ (by rw [checkCommon_spec]; exact hin)] at hj
    exact absurd hj (by simp)
  · intro hc hs hv
    have hin : p.Spec.JoinMethod ∉ JoinMethods :=
      fun h => hv ((ValidateJoinMethod_none_iff _).mpr h)
    have hdef := defaultJoinMethod_common_of_specified d p hs
    rw [CheckAndSetDefaults_of_common d p hc,
      checkJoinMethod_unknown _ (by rw [hdef]; exact hin), hdef]

/-- C20, worked cases: the accepted `ec2` sample ends with a registered join method; the
token with the unregistered join method `k8s` is rejected with the unknown-join-method
error. -/
theorem CheckAndSetDefaults_agrees_with_registry_witness :
    ValidateJoinMethod (ec2Sample.CheckAndSetDefaults refDeps).1.Spec.JoinMethod = none ∧
    (unknownMethodSample.CheckAndSetDefaults refDeps).2 =
      some (BadParameter "unknown join method %q" ["k8s"]) :=
  ⟨((CheckAndSetDefaults_agrees_with_registry refDeps ec2Sample).1 (by decide)).1,
   (CheckAndSetDefaults_agrees_with_registry refDeps unknownMethodSample).2
      (by decide) (by decide) (by decide)⟩

end Teleport
